import Mathlib

set_option maxHeartbeats 1000000

/-!
Shallow embedding of the `MayaHydraSceneDelegate` incremental scene
synchronization engine (sceneDelegate.cpp): the adapter ownership tables,
the pending-work queues, the per-frame reconciliation pass (`PreFrame`),
the pull-query dispatch helpers and the material resolution logic, together
with theorems about them.

Modelling conventions:
* `SdfPath` is a string; `MObject` is a numeric handle with `0` as
  `MObject::kNullObj`; `std::unordered_map` / `TfHashMap` tables are
  association lists with `std::map`-style insert-if-absent semantics.
* External collaborators (the adapter registry, Maya DAG access, UFE
  ownership checks) are oracle functions collected in a `Config`.
* Calls whose only effect is inside an external collaborator (adapter
  callback registration, prim removal/population inside the render index,
  dirty-bit forwarding to the change tracker) are recorded as trace events
  where a claim depends on them, and otherwise not modelled.
-/

abbrev SdfPath := String

abbrev TfToken := String

abbrev MObject := Nat

def MObject.kNullObj : MObject := 0

def SdfPath.isPropertyPath (p : SdfPath) : Bool := p.contains '.'

def SdfPath.getPrimPath (p : SdfPath) : SdfPath := p.takeWhile (fun c => c != '.')

/-- `SdfPath::AbsoluteRootPath().AppendChild(_tokens->MayaDefaultMaterial)`. -/
def mayaDefaultMaterialPath : SdfPath := "/__maya_default_material__"

/-- `SdfPath::EmptyPath()`: the fallback material (constant shading + display color). -/
def fallbackMaterial : SdfPath := ""

/-- The `kInvalidMaterial` sentinel compared against render-item materials.
Its definition lives in a header outside this excerpt; modelled as a fixed
sentinel path distinct from any real material path. -/
def kInvalidMaterial : SdfPath := "/__kInvalidMaterial__"

/-- `MayaHydraDelegateCtx::RebuildFlagCallbacks`. The enum is declared in a
header outside this excerpt; the two rebuild flags are used by the code as
independent mask bits (one selects callback reset, one prim remove+repopulate),
so they are modelled as distinct single bits. -/
def RebuildFlagCallbacks : Nat := 1

/-- `MayaHydraDelegateCtx::RebuildFlagPrim`; see `RebuildFlagCallbacks`. -/
def RebuildFlagPrim : Nat := 2

/-- `HdChangeTracker::DirtyMaterialId`, modelled as a distinct bit. -/
def DirtyMaterialId : Nat := 4

/-- `HdChangeTracker::DirtyInstancer`, modelled as a distinct bit. -/
def DirtyInstancer : Nat := 8

/-- `HdChangeTracker::DirtyInstanceIndex`, modelled as a distinct bit. -/
def DirtyInstanceIndex : Nat := 16

/-- `HdChangeTracker::DirtyPrimvar`, modelled as a distinct bit. -/
def DirtyPrimvar : Nat := 32

/-- `MHWRender::MGeometry::Primitive` (the constructors the code tests for). -/
inductive GeomPrimitive where
  | kLines
  | kLineStrip
  | kTriangles
  | kPoints
deriving DecidableEq

/-- An `MDagPath` together with the queries the delegate makes on it. -/
structure DagPath where
  node : MObject
  fullPathName : String
  valid : Bool := true
  isTransform : Bool := false
  isIntermediate : Bool := false
  isInstanced : Bool := false
  instanceNumber : Nat := 0
deriving DecidableEq

/-- Hydra `VtValue`; `empty` is the value-initialized default `VtValue()`. -/
inductive VtValue where
  | empty
  | boolVal (b : Bool)
  | stringVal (s : String)
deriving DecidableEq

/-- `HdMeshTopology`; the default constructor gives empty arrays. -/
structure HdMeshTopology where
  faceVertexCounts : List Nat := []
  faceVertexIndices : List Nat := []
deriving DecidableEq

/-- `GfMatrix4d` as a row list; only the identity constant matters here. -/
structure GfMatrix4d where
  rows : List (List Int)
deriving DecidableEq

/-- `GfMatrix4d(1.0)`. -/
def GfMatrix4d.identity : GfMatrix4d :=
  ⟨[[1, 0, 0, 0], [0, 1, 0, 0], [0, 0, 1, 0], [0, 0, 0, 1]]⟩

/-- A primvar descriptor, identified by its name. -/
abbrev PrimvarDescriptor := String

/-- `MayaHydraRenderItemAdapter`: identity path, fast integer key, primitive
kind, bound material, and the per-query answers the delegate forwards to. -/
structure RenderItemAdapter where
  id : SdfPath
  fastId : Int
  primitive : GeomPrimitive := GeomPrimitive.kTriangles
  material : SdfPath := kInvalidMaterial
  visible : Bool := false
  meshTopology : HdMeshTopology := {}
  getVal : TfToken → VtValue := fun _ => VtValue.empty
  primvarDesc : Nat → List PrimvarDescriptor := fun _ => []

/-- `MayaHydraLightAdapter`: DAG path, lighting-enabled state, queries. -/
structure LightAdapter where
  dagPath : DagPath
  lightingOn : Bool := true
  visible : Bool := false
  isSupported : Bool := true
  getVal : TfToken → VtValue := fun _ => VtValue.empty

/-- `SetLightingOn(true)` applied to a light adapter. -/
def turnOnLight (a : LightAdapter) : LightAdapter := { a with lightingOn := true }

/-- `MayaHydraShapeAdapter` (mesh-adapter mode): DAG path, instancing mark,
bound material node, queries. -/
structure ShapeAdapter where
  dagPath : DagPath
  isInstanced : Bool := false
  material : MObject := MObject.kNullObj
  visible : Bool := false
  isSupported : Bool := true
  meshTopology : HdMeshTopology := {}
  getVal : TfToken → VtValue := fun _ => VtValue.empty
  instancePrimvar : TfToken → VtValue := fun _ => VtValue.empty
  primvarDesc : Nat → List PrimvarDescriptor := fun _ => []
  instancePrimvarDesc : Nat → List PrimvarDescriptor := fun _ => []

/-- `MayaHydraCameraAdapter`. -/
structure CameraAdapter where
  dagPath : DagPath
  isSupported : Bool := true
  getVal : TfToken → VtValue := fun _ => VtValue.empty

/-- `MayaHydraMaterialAdapter`: the result of `UpdateMaterialTag()` (whether
the tag was re-derived to a different value) and x-ray shading mode. -/
structure MaterialAdapter where
  updateMaterialTagResult : Bool := false
  xray : Bool := false
  isSupported : Bool := true
  getVal : TfToken → VtValue := fun _ => VtValue.empty

/-- One rprim of the render index: id, bound material, change-tracker bits. -/
structure Rprim where
  id : SdfPath
  materialId : SdfPath
  dirtyBits : Nat := 0
deriving DecidableEq

/-- Trace of calls into external collaborators made by a reconciliation step:
`recreated` marks a `RecreateAdapter` application, `rebuiltApplied` marks a
drained rebuild queue entry applied to a found adapter, `markedDirty` marks a
`MarkDirty` forward into the render index change tracker. -/
inductive TraceEv where
  | recreated (id : SdfPath)
  | rebuiltApplied (id : SdfPath) (flags : Nat)
  | markedDirty (id : SdfPath) (bits : Nat)
deriving DecidableEq

/-- Association-list map: first entry with the key wins, as in the hash maps
used by the delegate (keys are unique in every reachable table). -/
def mapLookup {κ α : Type} [DecidableEq κ] : List (κ × α) → κ → Option α
  | [], _ => none
  | (k, v) :: rest, key => if k = key then some v else mapLookup rest key

/-- `map.insert({k, v})`: inserts only when the key is absent. -/
def mapInsert {κ α : Type} [DecidableEq κ] (m : List (κ × α)) (k : κ) (v : α) :
    List (κ × α) :=
  match mapLookup m k with
  | some _ => m
  | none => (k, v) :: m

/-- `map.erase(k)`: removes the entry (entries) with the key. -/
def mapErase {κ α : Type} [DecidableEq κ] : List (κ × α) → κ → List (κ × α)
  | [], _ => []
  | (k, v) :: rest, key =>
    if k = key then mapErase rest key else (k, v) :: mapErase rest key

/-- Updates the value stored at a key, leaving the rest of the map alone
(the effect of mutating an adapter found by `_FindAdapter`). -/
def mapUpdate {κ α : Type} [DecidableEq κ] : List (κ × α) → κ → (α → α) → List (κ × α)
  | [], _, _ => []
  | (k, v) :: rest, key, f =>
    if k = key then (k, f v) :: rest else (k, v) :: mapUpdate rest key f

/-- Number of entries carrying a given key. -/
def countKey {κ α : Type} [DecidableEq κ] : List (κ × α) → κ → Nat
  | [], _ => 0
  | e :: rest, k => (if e.1 = k then 1 else 0) + countKey rest k

/-- The external collaborators the delegate consults: configuration flags,
the adapter registry creators, Maya DAG/UFE queries. A creator oracle value
`none` means `GetXxxAdapterCreator` returned no creation function; the value
`some none` means the creation function returned a null adapter. -/
structure Config where
  useMeshAdapter : Bool := false
  isHdSt : Bool := true
  lightsEnabled : Bool := true
  isUfeObj : MObject → Bool := fun _ => false
  isUfeDag : DagPath → Bool := fun _ => false
  hasLightCreatorObj : MObject → Bool := fun _ => false
  lightCreator : DagPath → Option (Option LightAdapter) := fun _ => none
  cameraCreator : DagPath → Option (Option CameraAdapter) := fun _ => none
  shapeCreator : DagPath → Option (Option ShapeAdapter) := fun _ => none
  materialCreator : SdfPath → MObject → Option (Option MaterialAdapter) := fun _ _ => none
  getPrimPath : DagPath → Bool → SdfPath := fun d _ => d.fullPathName
  getMaterialPath : MObject → SdfPath := fun _ => ""
  getAPathTo : MObject → Option DagPath := fun _ => none
  getPathOfNode : MObject → Option DagPath := fun _ => none
  objValid : MObject → Bool := fun _ => false
  childPaths : DagPath → List DagPath := fun _ => []
  getAllPathsTo : MObject → List DagPath := fun _ => []

/-- The mutable state of one `MayaHydraSceneDelegate`: the adapter ownership
tables (with the extra fast integer index for render items), the pending-work
queues, the render index rprims, and the cached display-style flags. -/
structure DelegateState where
  renderItemsAdapters : List (SdfPath × RenderItemAdapter) := []
  renderItemsAdaptersFast : List (Int × RenderItemAdapter) := []
  shapeAdapters : List (SdfPath × ShapeAdapter) := []
  lightAdapters : List (SdfPath × LightAdapter) := []
  cameraAdapters : List (SdfPath × CameraAdapter) := []
  materialAdapters : List (SdfPath × MaterialAdapter) := []
  lightsToAdd : List MObject := []
  addedNodes : List MObject := []
  adaptersToRecreate : List (SdfPath × MObject) := []
  adaptersToRebuild : List (SdfPath × Nat) := []
  materialTagsChanged : List SdfPath := []
  renderIndexRprims : List Rprim := []
  useDefaultMaterial : Bool := false
  xRayEnabled : Bool := false
  isPlaybackRunning : Bool := false

/-- The empty delegate right after construction. -/
def emptyDelegate : DelegateState := {}

/-- `MayaHydraSceneDelegate::_AddRenderItem`: inserts the adapter into the
fast integer-keyed table and the path-keyed table. -/
def _AddRenderItem (st : DelegateState) (ria : RenderItemAdapter) : DelegateState :=
  { st with
    renderItemsAdaptersFast := mapInsert st.renderItemsAdaptersFast ria.fastId ria
    renderItemsAdapters := mapInsert st.renderItemsAdapters ria.id ria }

/-- `MayaHydraSceneDelegate::_RemoveRenderItem`: erases the adapter from the
fast integer-keyed table and the path-keyed table. -/
def _RemoveRenderItem (st : DelegateState) (ria : RenderItemAdapter) : DelegateState :=
  { st with
    renderItemsAdaptersFast := mapErase st.renderItemsAdaptersFast ria.fastId
    renderItemsAdapters := mapErase st.renderItemsAdapters ria.id }

/-- `MayaHydraSceneDelegate::RemoveAdapter`: `_RemoveAdapter` folds over the
four path-keyed tables (render items, shapes, lights, materials); the first
table containing the id has its entry erased, after the adapter's
`RemoveCallbacks`/`RemovePrim` (external) are invoked.  Note that the fast
integer-keyed render-item table is not part of the fold. -/
def RemoveAdapter (st : DelegateState) (id : SdfPath) : DelegateState :=
  if (mapLookup st.renderItemsAdapters id).isSome then
    { st with renderItemsAdapters := mapErase st.renderItemsAdapters id }
  else if (mapLookup st.shapeAdapters id).isSome then
    { st with shapeAdapters := mapErase st.shapeAdapters id }
  else if (mapLookup st.lightAdapters id).isSome then
    { st with lightAdapters := mapErase st.lightAdapters id }
  else if (mapLookup st.materialAdapters id).isSome then
    { st with materialAdapters := mapErase st.materialAdapters id }
  else
    st

/-- `MayaHydraSceneDelegate::RecreateAdapterOnIdle`: linear search of the
recreate queue; an existing entry for the id has its payload overwritten,
otherwise the pair is appended. -/
def recreateEnqueue : List (SdfPath × MObject) → SdfPath → MObject → List (SdfPath × MObject)
  | [], id, obj => [(id, obj)]
  | (i, o) :: rest, id, obj =>
    if i = id then (i, obj) :: rest else (i, o) :: recreateEnqueue rest id obj

/-- State-level wrapper for `RecreateAdapterOnIdle`. -/
def RecreateAdapterOnIdle (st : DelegateState) (id : SdfPath) (obj : MObject) : DelegateState :=
  { st with adaptersToRecreate := recreateEnqueue st.adaptersToRecreate id obj }

/-- `MayaHydraSceneDelegate::RebuildAdapterOnIdle`: linear search of the
rebuild queue; an existing entry for the id has the new flags OR-ed into its
payload, otherwise the pair is appended. -/
def rebuildEnqueue : List (SdfPath × Nat) → SdfPath → Nat → List (SdfPath × Nat)
  | [], id, flags => [(id, flags)]
  | (i, f) :: rest, id, flags =>
    if i = id then (i, f ||| flags) :: rest else (i, f) :: rebuildEnqueue rest id flags

/-- State-level wrapper for `RebuildAdapterOnIdle`. -/
def RebuildAdapterOnIdle (st : DelegateState) (id : SdfPath) (flags : Nat) : DelegateState :=
  { st with adaptersToRebuild := rebuildEnqueue st.adaptersToRebuild id flags }

/-- `MayaHydraSceneDelegate::MaterialTagChanged`: appends the id to the
changed-tags queue unless it is already queued. -/
def MaterialTagChanged (st : DelegateState) (id : SdfPath) : DelegateState :=
  if id ∈ st.materialTagsChanged then st
  else { st with materialTagsChanged := st.materialTagsChanged ++ [id] }

/-- `_CreateAdapter` instantiated at the light adapter map: creator existence,
UFE ownership, duplicate-id and `IsSupported` checks, then insertion.  Returns
the created adapter (`none` when creation was rejected). -/
def CreateLightAdapter (cfg : Config) (st : DelegateState) (dag : DagPath) :
    DelegateState × Option LightAdapter :=
  match cfg.lightCreator dag with
  | none => (st, none)
  | some created =>
    if cfg.isUfeDag dag then (st, none)
    else
      let id := cfg.getPrimPath dag true
      if (mapLookup st.lightAdapters id).isSome then (st, none)
      else
        match created with
        | none => (st, none)
        | some a =>
          if a.isSupported then
            ({ st with lightAdapters := mapInsert st.lightAdapters id a }, some a)
          else (st, none)

/-- `_CreateAdapter` instantiated at the camera adapter map. -/
def CreateCameraAdapter (cfg : Config) (st : DelegateState) (dag : DagPath) :
    DelegateState × Option CameraAdapter :=
  match cfg.cameraCreator dag with
  | none => (st, none)
  | some created =>
    if cfg.isUfeDag dag then (st, none)
    else
      let id := cfg.getPrimPath dag true
      if (mapLookup st.cameraAdapters id).isSome then (st, none)
      else
        match created with
        | none => (st, none)
        | some a =>
          if a.isSupported then
            ({ st with cameraAdapters := mapInsert st.cameraAdapters id a }, some a)
          else (st, none)

/-- `_CreateAdapter` instantiated at the shape adapter map (`isSprim` false). -/
def CreateShapeAdapter (cfg : Config) (st : DelegateState) (dag : DagPath) :
    DelegateState × Option ShapeAdapter :=
  match cfg.shapeCreator dag with
  | none => (st, none)
  | some created =>
    if cfg.isUfeDag dag then (st, none)
    else
      let id := cfg.getPrimPath dag false
      if (mapLookup st.shapeAdapters id).isSome then (st, none)
      else
        match created with
        | none => (st, none)
        | some a =>
          if a.isSupported then
            ({ st with shapeAdapters := mapInsert st.shapeAdapters id a }, some a)
          else (st, none)

/-- `MayaHydraSceneDelegate::_CreateMaterial`: consults the material adapter
creator, rejects null/unsupported adapters, applies the cached x-ray mode,
and emplaces into the material table.  Returns whether creation succeeded. -/
def _CreateMaterial (cfg : Config) (st : DelegateState) (id : SdfPath) (obj : MObject) :
    Bool × DelegateState :=
  match cfg.materialCreator id obj with
  | none => (false, st)
  | some none => (false, st)
  | some (some a0) =>
    if a0.isSupported then
      let a := if st.xRayEnabled then { a0 with xray := true } else a0
      (true, { st with materialAdapters := mapInsert st.materialAdapters id a })
    else (false, st)

/-- `MayaHydraSceneDelegate::OnDagNodeAdded`: rejects null and maya-usd UFE
handles, queues lights into the lights-to-add queue, and (in mesh-adapter mode
only) queues everything else into the added-nodes queue.  No adapter map and
no render index state is touched. -/
def OnDagNodeAdded (cfg : Config) (st : DelegateState) (obj : MObject) : DelegateState :=
  if obj = MObject.kNullObj then st
  else if cfg.isUfeObj obj then st
  else if cfg.hasLightCreatorObj obj then
    { st with lightsToAdd := st.lightsToAdd ++ [obj] }
  else if cfg.useMeshAdapter then
    { st with addedNodes := st.addedNodes ++ [obj] }
  else st

/-- `MayaHydraSceneDelegate::OnDagNodeRemoved`: erases all queued entries for
the handle from the lights-to-add queue; only when none was removed there is
the added-nodes queue (in mesh-adapter mode) filtered. -/
def OnDagNodeRemoved (cfg : Config) (st : DelegateState) (obj : MObject) : DelegateState :=
  let filtered := st.lightsToAdd.filter (fun o => o ≠ obj)
  if filtered.length ≠ st.lightsToAdd.length then
    { st with lightsToAdd := filtered }
  else if cfg.useMeshAdapter then
    { st with addedNodes := st.addedNodes.filter (fun o => o ≠ obj) }
  else st

/-- `MayaHydraSceneDelegate::InsertDag`: skips transforms, intermediate
objects and maya-usd UFE items; tries light (when lights are enabled), then
camera; skips non-master instances; creates a shape adapter and lazily creates
its bound material when it is not yet registered. -/
def InsertDag (cfg : Config) (st : DelegateState) (dag : DagPath) : DelegateState :=
  if dag.isTransform then st
  else if dag.isIntermediate then st
  else if cfg.isUfeDag dag then st
  else
    let lightRes := if cfg.lightsEnabled then CreateLightAdapter cfg st dag else (st, none)
    if lightRes.2.isSome then lightRes.1
    else
      let camRes := CreateCameraAdapter cfg lightRes.1 dag
      if camRes.2.isSome then camRes.1
      else if dag.isInstanced && dag.instanceNumber > 0 then camRes.1
      else
        let shapeRes := CreateShapeAdapter cfg camRes.1 dag
        match shapeRes.2 with
        | none => shapeRes.1
        | some adapter =>
          if adapter.material ≠ MObject.kNullObj then
            let materialId := cfg.getMaterialPath adapter.material
            if (mapLookup shapeRes.1.materialAdapters materialId).isSome then shapeRes.1
            else (_CreateMaterial cfg shapeRes.1 materialId adapter.material).2
          else shapeRes.1

/-- `MayaHydraSceneDelegate::AddNewInstance`: resolves all DAG paths of the
node, looks up the master shape adapter; a single instance path or a master
not yet marked instanced forces a queued full recreate, otherwise only a
callback rebuild is queued and the master prim is marked dirty for
instancer / instance-index / primvar recomputation. -/
def AddNewInstance (cfg : Config) (st : DelegateState) (dag : DagPath) :
    DelegateState × List TraceEv :=
  match cfg.getAllPathsTo dag.node with
  | [] => (st, [])
  | masterDag :: restDags =>
    let id := cfg.getPrimPath masterDag false
    match mapLookup st.shapeAdapters id with
    | none => (st, [])
    | some masterAdapter =>
      if (masterDag :: restDags).length = 1 ∨ ¬ masterAdapter.isInstanced then
        (RecreateAdapterOnIdle st id masterDag.node, [])
      else
        (RebuildAdapterOnIdle st id RebuildFlagCallbacks,
          [TraceEv.markedDirty id (DirtyInstancer ||| DirtyInstanceIndex ||| DirtyPrimvar)])

/-- `MayaHydraSceneDelegate::RecreateAdapter`: erase+reinsert for lights
(via `OnDagNodeAdded`), shapes (mesh-adapter mode, via `InsertDag`) and
materials (marking referencing rprims dirty, via `_CreateMaterial`); a stale
handle abandons the reinsertion, a missing adapter is a warning no-op. -/
def RecreateAdapter (cfg : Config) (st : DelegateState) (id : SdfPath) (obj : MObject) :
    DelegateState :=
  if (mapLookup st.lightAdapters id).isSome then
    let st1 := { st with lightAdapters := mapErase st.lightAdapters id }
    if cfg.objValid obj then OnDagNodeAdded cfg st1 obj else st1
  else if cfg.useMeshAdapter && (mapLookup st.shapeAdapters id).isSome then
    let st1 := { st with shapeAdapters := mapErase st.shapeAdapters id }
    match cfg.getPathOfNode obj with
    | some path =>
      if path.valid && cfg.objValid obj then InsertDag cfg st1 path else st1
    | none => st1
  else if (mapLookup st.materialAdapters id).isSome then
    let st1 := { st with materialAdapters := mapErase st.materialAdapters id }
    let st2 := { st1 with
      renderIndexRprims := st1.renderIndexRprims.map (fun r =>
        if r.materialId = id then { r with dirtyBits := r.dirtyBits ||| DirtyMaterialId }
        else r) }
    if cfg.objValid obj then (_CreateMaterial cfg st2 (cfg.getMaterialPath obj) obj).2
    else st2
  else st

/-- First `PreFrame` step: a flip of the default-material display flag is
cached and, in mesh-adapter mode, every shape adapter is marked dirty for its
material id. -/
def stepDisplayFlags (cfg : Config) (st : DelegateState) (ctxDefaultMaterial : Bool) :
    DelegateState × List TraceEv :=
  if ctxDefaultMaterial ≠ st.useDefaultMaterial then
    let st1 := { st with useDefaultMaterial := ctxDefaultMaterial }
    if cfg.useMeshAdapter then
      (st1, st1.shapeAdapters.map (fun e => TraceEv.markedDirty e.1 DirtyMaterialId))
    else (st1, [])
  else (st, [])

/-- Second `PreFrame` step: a flip of the x-ray display flag is cached and
propagated to every material adapter (`EnableXRayShadingMode`). -/
def stepXray (st : DelegateState) (ctxXray : Bool) : DelegateState :=
  if ctxXray ≠ st.xRayEnabled then
    { st with
      xRayEnabled := ctxXray
      materialAdapters := st.materialAdapters.map (fun e => (e.1, { e.2 with xray := ctxXray })) }
  else st

/-- Inner loop of the material-tag step: every rprim of the render index whose
material id is the changed one is scheduled for a prim rebuild. -/
def rebuildRprimsDrain (id : SdfPath) : List Rprim → DelegateState → DelegateState
  | [], st => st
  | r :: rest, st =>
    if r.materialId = id then
      rebuildRprimsDrain id rest (RebuildAdapterOnIdle st r.id RebuildFlagPrim)
    else rebuildRprimsDrain id rest st

/-- Outer loop of the material-tag step over the queued changed-tag ids. -/
def materialTagsDrain : List SdfPath → DelegateState → DelegateState
  | [], st => st
  | id :: rest, st =>
    match mapLookup st.materialAdapters id with
    | some a =>
      if a.updateMaterialTagResult then
        materialTagsDrain rest (rebuildRprimsDrain id st.renderIndexRprims st)
      else materialTagsDrain rest st
    | none => materialTagsDrain rest st

/-- Third `PreFrame` step: for every queued changed-tag material that is
registered and whose `UpdateMaterialTag()` reports an actual change, every
referencing rprim is scheduled for a prim rebuild; the queue is then cleared. -/
def stepMaterialTags (cfg : Config) (st : DelegateState) : DelegateState :=
  if st.materialTagsChanged.isEmpty then st
  else
    let st1 := if cfg.isHdSt then materialTagsDrain st.materialTagsChanged st else st
    { st1 with materialTagsChanged := [] }

/-- Loop body of the lights-to-add step.  A handle whose DAG path can no
longer be resolved makes `PreFrame` return immediately (`Bool` result true);
the queue is cleared only when the whole loop completes. -/
def lightsToAddLoop (cfg : Config) : List MObject → DelegateState → DelegateState × Bool
  | [], st => ({ st with lightsToAdd := [] }, false)
  | obj :: rest, st =>
    match cfg.getAPathTo obj with
    | none => (st, true)
    | some dag => lightsToAddLoop cfg rest (CreateLightAdapter cfg st dag).1

/-- Fourth `PreFrame` step: instantiate queued light adapters. -/
def stepLightsToAdd (cfg : Config) (st : DelegateState) : DelegateState × Bool :=
  if st.lightsToAdd.isEmpty then (st, false)
  else lightsToAddLoop cfg st.lightsToAdd st

/-- Per-transform child scan of the added-nodes step: children that are
non-master instances go through `AddNewInstance`. -/
def childScan (cfg : Config) : List DagPath → DelegateState → DelegateState × List TraceEv
  | [], st => (st, [])
  | c :: rest, st =>
    if c.isInstanced && c.instanceNumber > 0 then
      let r := AddNewInstance cfg st c
      let r2 := childScan cfg rest r.1
      (r2.1, r.2 ++ r2.2)
    else childScan cfg rest st

/-- Child scan entry point (iterates `dag.child(i)` for a transform). -/
def scanTransformChildren (cfg : Config) (st : DelegateState) (dag : DagPath) :
    DelegateState × List TraceEv :=
  childScan cfg (cfg.childPaths dag) st

/-- Loop body of the added-nodes step: null handles are skipped, a handle
whose DAG path cannot be resolved makes `PreFrame` return immediately,
transforms have their children scanned for new instances, everything else is
inserted via `InsertDag`. -/
def addedNodesLoop (cfg : Config) : List MObject → DelegateState → DelegateState × List TraceEv × Bool
  | [], st => (st, [], false)
  | obj :: rest, st =>
    if obj = MObject.kNullObj then addedNodesLoop cfg rest st
    else
      match cfg.getAPathTo obj with
      | none => (st, [], true)
      | some dag =>
        if dag.isTransform then
          let r := scanTransformChildren cfg st dag
          let r2 := addedNodesLoop cfg rest r.1
          (r2.1, r.2 ++ r2.2.1, r2.2.2)
        else addedNodesLoop cfg rest (InsertDag cfg st dag)

/-- Fifth `PreFrame` step: instantiate queued generic-node adapters
(mesh-adapter mode only). -/
def stepAddedNodes (cfg : Config) (st : DelegateState) : DelegateState × List TraceEv × Bool :=
  if cfg.useMeshAdapter && !st.addedNodes.isEmpty then
    let r := addedNodesLoop cfg st.addedNodes st
    if r.2.2 then r
    else ({ r.1 with addedNodes := [] }, r.2.1, false)
  else (st, [], false)

/-- Erases the first rebuild-queue entry carrying the id (the `break` in the
recreate drain of `PreFrame`). -/
def eraseFirstRebuild : List (SdfPath × Nat) → SdfPath → List (SdfPath × Nat)
  | [], _ => []
  | (i, f) :: rest, id => if i = id then rest else (i, f) :: eraseFirstRebuild rest id

/-- Loop body of the recreate drain: each entry is applied via
`RecreateAdapter` and the first queued rebuild for the same identity is
erased. -/
def recreateDrain (cfg : Config) :
    List (SdfPath × MObject) → DelegateState → DelegateState × List TraceEv
  | [], st => (st, [])
  | e :: rest, st =>
    let st1 := RecreateAdapter cfg st e.1 e.2
    let st2 := { st1 with adaptersToRebuild := eraseFirstRebuild st1.adaptersToRebuild e.1 }
    let r := recreateDrain cfg rest st2
    (r.1, TraceEv.recreated e.1 :: r.2)

/-- Sixth `PreFrame` step: drain the recreate queue, then clear it. -/
def stepRecreate (cfg : Config) (st : DelegateState) : DelegateState × List TraceEv :=
  if st.adaptersToRecreate.isEmpty then (st, [])
  else
    let r := recreateDrain cfg st.adaptersToRecreate st
    ({ r.1 with adaptersToRecreate := [] }, r.2)

/-- Loop body of the rebuild drain: each queue entry whose identity is found
by `_FindAdapter` in the shape, light or material tables has the flagged
rebuild actions (callback reset and/or prim remove+repopulate, both external
adapter calls) applied to its adapter. -/
def rebuildDrain (st : DelegateState) : List (SdfPath × Nat) → List TraceEv
  | [] => []
  | e :: rest =>
    if (mapLookup st.shapeAdapters e.1).isSome
        || (mapLookup st.lightAdapters e.1).isSome
        || (mapLookup st.materialAdapters e.1).isSome then
      TraceEv.rebuiltApplied e.1 e.2 :: rebuildDrain st rest
    else rebuildDrain st rest

/-- Seventh `PreFrame` step: drain the rebuild queue, then clear it. -/
def stepRebuild (st : DelegateState) : DelegateState × List TraceEv :=
  if st.adaptersToRebuild.isEmpty then (st, [])
  else ({ st with adaptersToRebuild := [] }, rebuildDrain st st.adaptersToRebuild)

/-- One light reported active by the draw context. -/
structure LightSource where
  paramNull : Bool := false
  path : DagPath
deriving DecidableEq

/-- The per-frame draw context consumed by `PreFrame`. -/
structure DrawContext where
  displayDefaultMaterial : Bool := false
  displayXray : Bool := false
  lightsStatus : Bool := true
  activeLights : List LightSource := []

/-- `MayaHydraSceneDelegate::_GetActiveLightPaths`: the snapshot is seeded
with the full DAG path name of every existing light adapter. -/
def activeLightPathsAux :
    List (SdfPath × LightAdapter) → List (String × DagPath) → List (String × DagPath)
  | [], acc => acc
  | e :: rest, acc =>
    activeLightPathsAux rest (mapInsert acc e.2.dagPath.fullPathName e.2.dagPath)

/-- State-level wrapper for `_GetActiveLightPaths`. -/
def _GetActiveLightPaths (st : DelegateState) : List (String × DagPath) :=
  activeLightPathsAux st.lightAdapters []

/-- The draw-context light loop of `PreFrame`: skips null parameter blocks,
invalid paths and maya-usd UFE lights, and adds any light not yet present to
the snapshot.  (The `kShadowOn`/`kShadowViewProj` block only pushes the shadow
projection matrix into the adapter — adapter-internal state outside this
model — and does not touch the snapshot or the tables.) -/
def contextLightLoop (cfg : Config) :
    List LightSource → List (String × DagPath) → List (String × DagPath)
  | [], alp => alp
  | l :: rest, alp =>
    if l.paramNull then contextLightLoop cfg rest alp
    else if ¬ l.path.valid then contextLightLoop cfg rest alp
    else if cfg.isUfeDag l.path then contextLightLoop cfg rest alp
    else contextLightLoop cfg rest (mapInsert alp l.path.fullPathName l.path)

/-- The reconciliation sweep over the light adapters: an adapter whose path is
in the snapshot is turned on and its path erased from the snapshot, an adapter
whose path is absent is turned off. -/
def lightSweep :
    List (SdfPath × LightAdapter) → List (String × DagPath) →
    List (SdfPath × LightAdapter) × List (String × DagPath)
  | [], alp => ([], alp)
  | (id, a) :: rest, alp =>
    if (mapLookup alp a.dagPath.fullPathName).isSome then
      let r := lightSweep rest (mapErase alp a.dagPath.fullPathName)
      ((id, { a with lightingOn := true }) :: r.1, r.2)
    else
      let r := lightSweep rest alp
      ((id, { a with lightingOn := false }) :: r.1, r.2)

/-- Every path remaining in the snapshot after the sweep is a brand-new light
and gets a freshly created adapter. -/
def createRemainingLights (cfg : Config) : List (String × DagPath) → DelegateState → DelegateState
  | [], st => st
  | e :: rest, st => createRemainingLights cfg rest (CreateLightAdapter cfg st e.2).1

/-- Eighth `PreFrame` step (HdSt only): build the active-light snapshot, run
the draw-context light loop, sweep the adapters on/off, and create adapters
for the remaining snapshot paths.  When the context reports no lights and the
snapshot is empty, every light adapter is turned off. -/
def stepLightSync (cfg : Config) (st : DelegateState) (ctx : DrawContext) : DelegateState :=
  if ¬ cfg.isHdSt then st
  else
    let alp := _GetActiveLightPaths st
    if (¬ ctx.lightsStatus ∨ ctx.activeLights.length = 0) ∧ alp.length = 0 then
      { st with lightAdapters :=
          st.lightAdapters.map (fun e => (e.1, { e.2 with lightingOn := false })) }
    else
      let alp1 := contextLightLoop cfg ctx.activeLights alp
      let sweep := lightSweep st.lightAdapters alp1
      let st1 := { st with lightAdapters := sweep.1 }
      createRemainingLights cfg sweep.2 st1

/-- `MayaHydraSceneDelegate::PreFrame`: the per-frame synchronization pass.
The steps run in order; a failed DAG-path resolution in the lights-to-add or
added-nodes loop returns immediately, skipping every later step. -/
def PreFrame (cfg : Config) (st : DelegateState) (ctx : DrawContext) :
    DelegateState × List TraceEv :=
  let r1 := stepDisplayFlags cfg st ctx.displayDefaultMaterial
  let st1 := stepXray r1.1 ctx.displayXray
  let st2 := stepMaterialTags cfg st1
  let r4 := stepLightsToAdd cfg st2
  if r4.2 then (r4.1, r1.2)
  else
    let r5 := stepAddedNodes cfg r4.1
    if r5.2.2 then (r5.1, r1.2 ++ r5.2.1)
    else
      let r6 := stepRecreate cfg r5.1
      let r7 := stepRebuild r6.1
      (stepLightSync cfg r7.1 ctx, r1.2 ++ r5.2.1 ++ r6.2 ++ r7.2)

/-- `MayaHydraSceneDelegate::GetMaterialId`, tail shared by the render-item
fall-through and the unknown-id case: the mesh-adapter branch looks up the
shape's bound material, lazily creating its adapter, and falls back to the
fallback material. -/
def getMaterialIdMeshPart (cfg : Config) (st : DelegateState) (id : SdfPath) :
    SdfPath × DelegateState :=
  if cfg.useMeshAdapter then
    match mapLookup st.shapeAdapters id with
    | none => (fallbackMaterial, st)
    | some sa =>
      if sa.material = MObject.kNullObj then (fallbackMaterial, st)
      else
        let materialId := cfg.getMaterialPath sa.material
        if (mapLookup st.materialAdapters materialId).isSome then (materialId, st)
        else
          let r := _CreateMaterial cfg st materialId sa.material
          if r.1 then (materialId, r.2) else (fallbackMaterial, r.2)
  else (fallbackMaterial, st)

/-- `MayaHydraSceneDelegate::GetMaterialId`: default-material override first;
then the render-item branch (wireframe primitives resolve to the fallback
material, an invalid sentinel resolves to the fallback material, a registered
bound material wins); then the mesh-adapter branch; fallback otherwise. -/
def GetMaterialId (cfg : Config) (st : DelegateState) (id : SdfPath) :
    SdfPath × DelegateState :=
  if st.useDefaultMaterial then (mayaDefaultMaterialPath, st)
  else
    match mapLookup st.renderItemsAdapters id with
    | some ria =>
      if ria.primitive = GeomPrimitive.kLines ∨ ria.primitive = GeomPrimitive.kLineStrip then
        (fallbackMaterial, st)
      else if ria.material = kInvalidMaterial then (fallbackMaterial, st)
      else if (mapLookup st.materialAdapters ria.material).isSome then (ria.material, st)
      else getMaterialIdMeshPart cfg st id
    | none => getMaterialIdMeshPart cfg st id

/-- `MayaHydraSceneDelegate::GetVisible`: shape, then render-item, then light
table; `false` (the value-initialized `bool`) when the id is unknown. -/
def GetVisible (st : DelegateState) (id : SdfPath) : Bool :=
  match mapLookup st.shapeAdapters id with
  | some a => a.visible
  | none =>
    match mapLookup st.renderItemsAdapters id with
    | some a => a.visible
    | none =>
      match mapLookup st.lightAdapters id with
      | some a => a.visible
      | none => false

/-- `MayaHydraSceneDelegate::GetInstancerTransform`: always the identity. -/
def GetInstancerTransform (st : DelegateState) (instancerId : SdfPath) : GfMatrix4d :=
  GfMatrix4d.identity

/-- `MayaHydraSceneDelegate::GetMeshTopology`: shape then render-item table;
the value-initialized topology when the id is unknown. -/
def GetMeshTopology (st : DelegateState) (id : SdfPath) : HdMeshTopology :=
  match mapLookup st.shapeAdapters id with
  | some a => a.meshTopology
  | none =>
    match mapLookup st.renderItemsAdapters id with
    | some a => a.meshTopology
    | none => {}

/-- `MayaHydraSceneDelegate::Get`: the instance-primvar property-path branch
(mesh-adapter mode), then shape, render-item, camera, light and material
tables; the empty `VtValue` when the id is unknown. -/
def Get (cfg : Config) (st : DelegateState) (id : SdfPath) (key : TfToken) : VtValue :=
  if cfg.useMeshAdapter && SdfPath.isPropertyPath id then
    match mapLookup st.shapeAdapters (SdfPath.getPrimPath id) with
    | some a => a.instancePrimvar key
    | none => VtValue.empty
  else
    match mapLookup st.shapeAdapters id with
    | some a => a.getVal key
    | none =>
      match mapLookup st.renderItemsAdapters id with
      | some a => a.getVal key
      | none =>
        match mapLookup st.cameraAdapters id with
        | some a => a.getVal key
        | none =>
          match mapLookup st.lightAdapters id with
          | some a => a.getVal key
          | none =>
            match mapLookup st.materialAdapters id with
            | some a => a.getVal key
            | none => VtValue.empty

/-- `MayaHydraSceneDelegate::GetPrimvarDescriptors`: the instance-primvar
property-path branch (mesh-adapter mode), then shape and render-item tables;
the empty vector when the id is unknown. -/
def GetPrimvarDescriptors (cfg : Config) (st : DelegateState) (id : SdfPath)
    (interpolation : Nat) : List PrimvarDescriptor :=
  if cfg.useMeshAdapter && SdfPath.isPropertyPath id then
    match mapLookup st.shapeAdapters (SdfPath.getPrimPath id) with
    | some a => a.instancePrimvarDesc interpolation
    | none => []
  else
    match mapLookup st.shapeAdapters id with
    | some a => a.primvarDesc interpolation
    | none =>
      match mapLookup st.renderItemsAdapters id with
      | some a => a.primvarDesc interpolation
      | none => []

/-- The correspondence between the path-keyed render-item table and the fast
integer-keyed render-item table: an entry is present in one table exactly when
the corresponding entry is present in the other, pointing at the same adapter. -/
def RenderItemCorr (st : DelegateState) : Prop :=
  (∀ p a, mapLookup st.renderItemsAdapters p = some a →
    a.id = p ∧ mapLookup st.renderItemsAdaptersFast a.fastId = some a) ∧
  (∀ k a, mapLookup st.renderItemsAdaptersFast k = some a →
    a.fastId = k ∧ mapLookup st.renderItemsAdapters a.id = some a)

/-- Reachable-state invariant of the two pending-add queues: lights-to-add
only holds handles with a light creator, added-nodes only holds non-light
handles and only in mesh-adapter mode.  Both facts are immediate from the
`OnDagNodeAdded` branching. -/
def lightQueueInv (cfg : Config) (st : DelegateState) : Prop :=
  (∀ o ∈ st.lightsToAdd, cfg.hasLightCreatorObj o = true) ∧
  (∀ o ∈ st.addedNodes, cfg.useMeshAdapter = true ∧ cfg.hasLightCreatorObj o = false)

/-- The rebuild queue holds an entry for the id whose flags overlap the mask. -/
def hasFlagAt (q : List (SdfPath × Nat)) (id : SdfPath) (m : Nat) : Prop :=
  ∃ f, mapLookup q id = some f ∧ f &&& m ≠ 0

/-- A concrete render-item adapter. -/
def ria1 : RenderItemAdapter := { id := "/rItem1", fastId := 7 }

/-- A concrete light DAG path. -/
def dagLightP : DagPath := { node := 5, fullPathName := "|pointLight1" }

/-- A concrete light adapter for `dagLightP`, currently turned off. -/
def lightAdapterP : LightAdapter := { dagPath := dagLightP, lightingOn := false }

/-- The default configuration (HdSt backend, render-item mode). -/
def cfgHdSt : Config := {}

/-- A delegate owning exactly the light adapter for `dagLightP`. -/
def stLightP : DelegateState := { lightAdapters := [("/lights/pointLight1", lightAdapterP)] }

/-- A draw context whose active-light enumeration is empty. -/
def ctxNoLights : DrawContext := {}

/-- A resolvable light node used behind a failing one. -/
def dagLightGood : DagPath := { node := 2, fullPathName := "|ambientLight1" }

/-- The adapter the registry would create for `dagLightGood`. -/
def lightAdapterGood : LightAdapter := { dagPath := dagLightGood }

/-- A configuration where handle 1 has become unresolvable while handle 2
resolves to a creatable light. -/
def cfgFailFirstLight : Config :=
  { isHdSt := false
    getAPathTo := fun o => if o = 2 then some dagLightGood else none
    lightCreator := fun _ => some (some lightAdapterGood) }

/-- Two queued lights (the first unresolvable) plus a pending rebuild. -/
def stTwoQueuedLights : DelegateState :=
  { lightsToAdd := [1, 2], adaptersToRebuild := [("/s1", RebuildFlagPrim)] }

/-- A pending recreate and a pending rebuild for the same identity. -/
def stRecreateRebuild : DelegateState :=
  { adaptersToRecreate := [("/xform1", 9)]
    adaptersToRebuild := [("/xform1", 3)] }

/-- A wireframe render-item adapter. -/
def riaLines : RenderItemAdapter :=
  { id := "/ri/lines1", fastId := 3, primitive := GeomPrimitive.kLines }

/-- A shaded render-item adapter bound to a registered material. -/
def riaShaded : RenderItemAdapter :=
  { id := "/ri/shaded1", fastId := 4, material := "/materials/mat1" }

/-- A registered material adapter. -/
def matAdapter1 : MaterialAdapter := {}

/-- A delegate with a wireframe item, a shaded item and its material. -/
def stMaterials : DelegateState :=
  { renderItemsAdapters := [("/ri/lines1", riaLines), ("/ri/shaded1", riaShaded)]
    renderItemsAdaptersFast := [(3, riaLines), (4, riaShaded)]
    materialAdapters := [("/materials/mat1", matAdapter1)] }

/-- A delegate with the global default-material override active. -/
def stDefaultOverride : DelegateState := { useDefaultMaterial := true }

/-- A material adapter whose `UpdateMaterialTag()` reports a change. -/
def matTagChangedAdapter : MaterialAdapter := { updateMaterialTagResult := true }

/-- Queued tag change for a material referenced by two rprims. -/
def stTagChange : DelegateState :=
  { materialTagsChanged := ["/materials/matM"]
    materialAdapters := [("/materials/matM", matTagChangedAdapter)]
    renderIndexRprims :=
      [{ id := "/shapes/shapeA", materialId := "/materials/matM" },
       { id := "/shapes/shapeB", materialId := "/materials/matM" }] }

/-- The master DAG path of an instanced shape node (handle 11). -/
def dagMaster : DagPath := { node := 11, fullPathName := "|grp|shapeM" }

/-- A second instance path of the same node. -/
def dagInstance2 : DagPath :=
  { node := 11, fullPathName := "|grp2|shapeM", isInstanced := true, instanceNumber := 1 }

/-- A master shape adapter not marked instanced. -/
def shapeMasterSingle : ShapeAdapter := { dagPath := dagMaster }

/-- A master shape adapter already marked instanced. -/
def shapeMasterInstanced : ShapeAdapter := { dagPath := dagMaster, isInstanced := true }

/-- Configuration where node 11 has a single DAG path. -/
def cfgSingleInstance : Config :=
  { getAllPathsTo := fun o => if o = 11 then [dagMaster] else [] }

/-- Configuration where node 11 has two DAG paths. -/
def cfgMultiInstance : Config :=
  { getAllPathsTo := fun o => if o = 11 then [dagMaster, dagInstance2] else [] }

/-- A delegate owning the not-yet-instanced master shape adapter. -/
def stMasterSingle : DelegateState := { shapeAdapters := [("|grp|shapeM", shapeMasterSingle)] }

/-- A delegate owning the instanced master shape adapter. -/
def stMasterInstanced : DelegateState :=
  { shapeAdapters := [("|grp|shapeM", shapeMasterInstanced)] }

/-- Configuration where exactly handle 3 is a light. -/
def cfgLightObj : Config := { hasLightCreatorObj := fun o => o == 3 }

/-- A delegate with light handle 3 queued for addition. -/
def stQueuedLightObj : DelegateState := { lightsToAdd := [3] }

/-! ### Association-map lemmas -/

theorem mapLookup_erase {κ α : Type} [DecidableEq κ] (m : List (κ × α)) (k k2 : κ) :
    mapLookup (mapErase m k) k2 = if k2 = k then none else mapLookup m k2 := by
  induction m with
  | nil => simp [mapErase, mapLookup]
  | cons e rest ih =>
    obtain ⟨k1, v⟩ := e
    by_cases h1 : k1 = k
    · subst h1
      rw [show mapErase ((k1, v) :: rest) k1 = mapErase rest k1 from by simp [mapErase], ih]
      by_cases h2 : k2 = k1
      · simp [h2]
      · have h3 : k1 ≠ k2 := fun hh => h2 hh.symm
        simp [h2, mapLookup, h3]
    · rw [show mapErase ((k1, v) :: rest) k = (k1, v) :: mapErase rest k from by simp [mapErase, h1]]
      by_cases h2 : k2 = k
      · subst h2
        have h3 : k1 ≠ k2 := h1
        simp [mapLookup, h3, ih]
      · by_cases h4 : k1 = k2
        · simp [mapLookup, h4, h2]
        · simp [mapLookup, h4, h2, ih]

theorem mapInsert_of_present {κ α : Type} [DecidableEq κ] {m : List (κ × α)} {k : κ} (v : α)
    (h : (mapLookup m k).isSome) : mapInsert m k v = m := by
  cases hm : mapLookup m k with
  | some w => simp [mapInsert, hm]
  | none => rw [hm] at h; simp at h

theorem mapInsert_of_absent {κ α : Type} [DecidableEq κ] {m : List (κ × α)} {k : κ} (v : α)
    (h : mapLookup m k = none) : mapInsert m k v = (k, v) :: m := by
  simp [mapInsert, h]

theorem mapLookup_insert_absent {κ α : Type} [DecidableEq κ] {m : List (κ × α)} {k : κ}
    (v : α) (k2 : κ) (h : mapLookup m k = none) :
    mapLookup (mapInsert m k v) k2 = if k = k2 then some v else mapLookup m k2 := by
  rw [mapInsert_of_absent v h]
  simp [mapLookup]

theorem mapLookup_insert_isSome {κ α : Type} [DecidableEq κ] {m : List (κ × α)} {k k2 : κ}
    {v : α} (h : (mapLookup m k2).isSome) : (mapLookup (mapInsert m k v) k2).isSome := by
  cases hm : mapLookup m k with
  | some w => rw [mapInsert_of_present v (by rw [hm]; rfl)]; exact h
  | none =>
    rw [mapLookup_insert_absent v k2 hm]
    by_cases hk : k = k2
    · simp [hk]
    · simp [hk]; exact h

theorem mapLookup_insert_self_isSome {κ α : Type} [DecidableEq κ] (m : List (κ × α))
    (k : κ) (v : α) : (mapLookup (mapInsert m k v) k).isSome := by
  cases hm : mapLookup m k with
  | some w => rw [mapInsert_of_present v (by rw [hm]; rfl), hm]; rfl
  | none => rw [mapLookup_insert_absent v k hm]; simp

theorem mapLookup_mem {κ α : Type} [DecidableEq κ] {m : List (κ × α)} {k : κ} {v : α}
    (h : mapLookup m k = some v) : (k, v) ∈ m := by
  induction m with
  | nil => simp [mapLookup] at h
  | cons e rest ih =>
    obtain ⟨k1, v1⟩ := e
    by_cases h1 : k1 = k
    · subst h1
      simp [mapLookup] at h
      subst h
      exact List.mem_cons_self _ _
    · simp [mapLookup, h1] at h
      exact List.mem_cons_of_mem _ (ih h)

theorem countKey_zero_of_lookup_none {κ α : Type} [DecidableEq κ] {m : List (κ × α)} {k : κ}
    (h : mapLookup m k = none) : countKey m k = 0 := by
  induction m with
  | nil => rfl
  | cons e rest ih =>
    obtain ⟨k1, v1⟩ := e
    by_cases h1 : k1 = k
    · simp [mapLookup, h1] at h
    · simp [mapLookup, h1] at h
      simp [countKey, h1, ih h]

/-! ### Rebuild / recreate queue lemmas -/

theorem rebuildEnqueue_lookup_absent (q : List (SdfPath × Nat)) (id : SdfPath) (fl : Nat)
    (h : mapLookup q id = none) : mapLookup (rebuildEnqueue q id fl) id = some fl := by
  induction q with
  | nil => simp [rebuildEnqueue, mapLookup]
  | cons e rest ih =>
    obtain ⟨i, f⟩ := e
    by_cases hi : i = id
    · simp [mapLookup, hi] at h
    · simp [mapLookup, hi] at h
      simp [rebuildEnqueue, hi, mapLookup, ih h]

theorem rebuildEnqueue_lookup_present (q : List (SdfPath × Nat)) (id : SdfPath) (fl f : Nat)
    (h : mapLookup q id = some f) :
    mapLookup (rebuildEnqueue q id fl) id = some (f ||| fl) := by
  induction q with
  | nil => simp [mapLookup] at h
  | cons e rest ih =>
    obtain ⟨i, f1⟩ := e
    by_cases hi : i = id
    · simp [mapLookup, hi] at h
      subst h
      simp [rebuildEnqueue, hi, mapLookup]
    · simp [mapLookup, hi] at h
      simp [rebuildEnqueue, hi, mapLookup, ih h]

theorem rebuildEnqueue_lookup_other (q : List (SdfPath × Nat)) (id j : SdfPath) (fl : Nat)
    (h : j ≠ id) : mapLookup (rebuildEnqueue q id fl) j = mapLookup q j := by
  have hji : id ≠ j := fun hh => h hh.symm
  induction q with
  | nil =>
    simp only [rebuildEnqueue, mapLookup]
    rw [if_neg hji]
  | cons e rest ih =>
    obtain ⟨i, f⟩ := e
    by_cases hi : i = id
    · subst hi
      have : i ≠ j := fun hh => h hh.symm
      simp [rebuildEnqueue, mapLookup, this]
    · simp [rebuildEnqueue, hi, mapLookup, ih]

theorem rebuildEnqueue_countKey_self (q : List (SdfPath × Nat)) (id : SdfPath) (fl : Nat) :
    countKey (rebuildEnqueue q id fl) id = max 1 (countKey q id) := by
  induction q with
  | nil => simp [rebuildEnqueue, countKey]
  | cons e rest ih =>
    obtain ⟨i, f⟩ := e
    by_cases hi : i = id
    · simp [rebuildEnqueue, hi, countKey]
    · simp [rebuildEnqueue, hi, countKey, ih]

theorem rebuildEnqueue_countKey_other (q : List (SdfPath × Nat)) (id j : SdfPath) (fl : Nat)
    (h : j ≠ id) : countKey (rebuildEnqueue q id fl) j = countKey q j := by
  have hji : id ≠ j := fun hh => h hh.symm
  induction q with
  | nil => simp [rebuildEnqueue, countKey, hji]
  | cons e rest ih =>
    obtain ⟨i, f⟩ := e
    by_cases hi : i = id
    · subst hi
      simp [rebuildEnqueue, countKey]
    · simp [rebuildEnqueue, hi, countKey, ih]

theorem recreateEnqueue_lookup_self (q : List (SdfPath × MObject)) (id : SdfPath)
    (obj : MObject) : mapLookup (recreateEnqueue q id obj) id = some obj := by
  induction q with
  | nil => simp [recreateEnqueue, mapLookup]
  | cons e rest ih =>
    obtain ⟨i, o⟩ := e
    by_cases hi : i = id
    · simp [recreateEnqueue, hi, mapLookup]
    · simp [recreateEnqueue, hi, mapLookup, ih]

/-! ### Bitmask lemmas -/

theorem and_ne_zero_lor_left {a b m : Nat} (h : a &&& m ≠ 0) : (a ||| b) &&& m ≠ 0 := by
  intro h0
  apply h
  apply Nat.zero_of_testBit_eq_false
  intro i
  have hi : ((a ||| b) &&& m).testBit i = false := by rw [h0]; exact Nat.zero_testBit i
  rw [Nat.testBit_land, Nat.testBit_lor] at hi
  rw [Nat.testBit_land]
  cases ha : a.testBit i <;> cases hm : m.testBit i <;> simp_all

theorem and_ne_zero_lor_right {a b m : Nat} (h : b &&& m ≠ 0) : (a ||| b) &&& m ≠ 0 := by
  rw [Nat.lor_comm]
  exact and_ne_zero_lor_left h

/-! ### C4: rebuild-queue coalescing -/

/-- C4: For every identity path id and flag bitmasks A and B, calling
`RebuildAdapterOnIdle(id, A)` and then `RebuildAdapterOnIdle(id, B)` before
the next synchronization pass leaves exactly one pending rebuild entry for id,
whose flags equal `A ||| B`; and `RebuildAdapterOnIdle` never creates a
duplicate entry for a key that had at most one. -/
theorem claim4_rebuild_coalesce (st : DelegateState) (id : SdfPath) (A B : Nat)
    (h : mapLookup st.adaptersToRebuild id = none) :
    countKey (RebuildAdapterOnIdle (RebuildAdapterOnIdle st id A) id B).adaptersToRebuild id
      = 1 ∧
    mapLookup (RebuildAdapterOnIdle (RebuildAdapterOnIdle st id A) id B).adaptersToRebuild id
      = some (A ||| B) ∧
    ∀ (st1 : DelegateState) (j i : SdfPath) (fl : Nat),
      countKey st1.adaptersToRebuild j ≤ 1 →
      countKey (RebuildAdapterOnIdle st1 i fl).adaptersToRebuild j ≤ 1 := by
  refine ⟨?_, ?_, ?_⟩
  · have h0 : countKey st.adaptersToRebuild id = 0 := countKey_zero_of_lookup_none h
    simp only [RebuildAdapterOnIdle]
    rw [rebuildEnqueue_countKey_self, rebuildEnqueue_countKey_self, h0]
    omega
  · simp only [RebuildAdapterOnIdle]
    rw [rebuildEnqueue_lookup_present _ _ _ _ (rebuildEnqueue_lookup_absent _ _ _ h)]
  · intro st1 j i fl hc
    simp only [RebuildAdapterOnIdle]
    by_cases hj : j = i
    · subst hj
      rw [rebuildEnqueue_countKey_self]
      omega
    · rw [rebuildEnqueue_countKey_other _ _ _ _ hj]
      exact hc

/-- C4 witness: concrete double enqueue with flags 5 then 3. -/
theorem claim4_rebuild_coalesce_witness :
    countKey (RebuildAdapterOnIdle (RebuildAdapterOnIdle emptyDelegate "/shape1" 5)
        "/shape1" 3).adaptersToRebuild "/shape1" = 1 ∧
    mapLookup (RebuildAdapterOnIdle (RebuildAdapterOnIdle emptyDelegate "/shape1" 5)
        "/shape1" 3).adaptersToRebuild "/shape1" = some (5 ||| 3) :=
  ⟨(claim4_rebuild_coalesce emptyDelegate "/shape1" 5 3 rfl).1,
   (claim4_rebuild_coalesce emptyDelegate "/shape1" 5 3 rfl).2.1⟩

/-! ### C9: new-instance handling -/

/-- C9: When `AddNewInstance` runs for a shape with an existing master
adapter: a single instance path or a master not marked instanced schedules a
full recreate (and neither touches the rebuild queue nor marks dirty); a
multi-path instanced master schedules only a callback rebuild and marks the
prim dirty for instancer, instance-index and primvar changes, leaving the
recreate queue alone. -/
theorem claim9_instance_recreate_or_rebuild
    (cfg : Config) (st : DelegateState) (dag masterDag : DagPath)
    (restDags : List DagPath) (master : ShapeAdapter)
    (hdags : cfg.getAllPathsTo dag.node = masterDag :: restDags)
    (hm : mapLookup st.shapeAdapters (cfg.getPrimPath masterDag false) = some master) :
    ((restDags = [] ∨ master.isInstanced = false) →
      mapLookup (AddNewInstance cfg st dag).1.adaptersToRecreate
          (cfg.getPrimPath masterDag false) = some masterDag.node ∧
      (AddNewInstance cfg st dag).1.adaptersToRebuild = st.adaptersToRebuild ∧
      (AddNewInstance cfg st dag).2 = []) ∧
    (restDags ≠ [] → master.isInstanced = true →
      hasFlagAt (AddNewInstance cfg st dag).1.adaptersToRebuild
        (cfg.getPrimPath masterDag false) RebuildFlagCallbacks ∧
      (AddNewInstance cfg st dag).1.adaptersToRecreate = st.adaptersToRecreate ∧
      (AddNewInstance cfg st dag).2 =
        [TraceEv.markedDirty (cfg.getPrimPath masterDag false)
          (DirtyInstancer ||| DirtyInstanceIndex ||| DirtyPrimvar)]) := by
  constructor
  · intro hcase
    have hcond : (masterDag :: restDags).length = 1 ∨ ¬ master.isInstanced := by
      rcases hcase with h1 | h1
      · left; simp [h1]
      · right; simp [h1]
    simp only [AddNewInstance, hdags, hm]
    rw [if_pos hcond]
    refine ⟨?_, rfl, rfl⟩
    exact recreateEnqueue_lookup_self _ _ _
  · intro hne hinst
    have hcond : ¬ ((masterDag :: restDags).length = 1 ∨ ¬ master.isInstanced) := by
      intro hc
      rcases hc with h1 | h1
      · exact hne (by simpa using h1)
      · rw [hinst] at h1; exact h1 rfl
    simp only [AddNewInstance, hdags, hm]
    rw [if_neg hcond]
    refine ⟨?_, rfl, rfl⟩
    simp only [RebuildAdapterOnIdle, hasFlagAt]
    cases hq : mapLookup st.adaptersToRebuild (cfg.getPrimPath masterDag false) with
    | none =>
      refine ⟨RebuildFlagCallbacks, rebuildEnqueue_lookup_absent _ _ _ hq, by decide⟩
    | some f =>
      refine ⟨f ||| RebuildFlagCallbacks, rebuildEnqueue_lookup_present _ _ _ _ hq, ?_⟩
      exact and_ne_zero_lor_right (by decide)

/-- C9 witness: concrete single-instance and already-instanced cases. -/
theorem claim9_instance_witness :
    mapLookup (AddNewInstance cfgSingleInstance stMasterSingle dagInstance2).1.adaptersToRecreate
      "|grp|shapeM" = some 11 ∧
    hasFlagAt (AddNewInstance cfgMultiInstance stMasterInstanced dagInstance2).1.adaptersToRebuild
      "|grp|shapeM" RebuildFlagCallbacks ∧
    (AddNewInstance cfgMultiInstance stMasterInstanced dagInstance2).1.adaptersToRecreate = [] ∧
    (AddNewInstance cfgMultiInstance stMasterInstanced dagInstance2).2 =
      [TraceEv.markedDirty "|grp|shapeM" (DirtyInstancer ||| DirtyInstanceIndex ||| DirtyPrimvar)] := by
  have h1 := claim9_instance_recreate_or_rebuild cfgSingleInstance stMasterSingle dagInstance2
    dagMaster [] shapeMasterSingle rfl rfl
  have h2 := claim9_instance_recreate_or_rebuild cfgMultiInstance stMasterInstanced dagInstance2
    dagMaster [dagInstance2] shapeMasterInstanced rfl rfl
  have h2r := h2.2 (by simp) rfl
  exact ⟨(h1.1 (Or.inl rfl)).1, h2r.1, h2r.2.1, h2r.2.2⟩

/-! ### C10: node-lifecycle handlers -/

/-- C10: `OnDagNodeAdded` and `OnDagNodeRemoved` mutate only the pending-work
queues (every adapter map and the render index is unchanged); both preserve
the queue invariant of reachable states; and, under that invariant,
`OnDagNodeRemoved` leaves no pending queued add for the handle in either the
lights-to-add or the added-nodes queue. -/
theorem claim10_node_lifecycle (cfg : Config) (st : DelegateState) (obj : MObject) :
    ((OnDagNodeAdded cfg st obj).renderItemsAdapters = st.renderItemsAdapters ∧
     (OnDagNodeAdded cfg st obj).renderItemsAdaptersFast = st.renderItemsAdaptersFast ∧
     (OnDagNodeAdded cfg st obj).shapeAdapters = st.shapeAdapters ∧
     (OnDagNodeAdded cfg st obj).lightAdapters = st.lightAdapters ∧
     (OnDagNodeAdded cfg st obj).cameraAdapters = st.cameraAdapters ∧
     (OnDagNodeAdded cfg st obj).materialAdapters = st.materialAdapters ∧
     (OnDagNodeAdded cfg st obj).renderIndexRprims = st.renderIndexRprims) ∧
    ((OnDagNodeRemoved cfg st obj).renderItemsAdapters = st.renderItemsAdapters ∧
     (OnDagNodeRemoved cfg st obj).renderItemsAdaptersFast = st.renderItemsAdaptersFast ∧
     (OnDagNodeRemoved cfg st obj).shapeAdapters = st.shapeAdapters ∧
     (OnDagNodeRemoved cfg st obj).lightAdapters = st.lightAdapters ∧
     (OnDagNodeRemoved cfg st obj).cameraAdapters = st.cameraAdapters ∧
     (OnDagNodeRemoved cfg st obj).materialAdapters = st.materialAdapters ∧
     (OnDagNodeRemoved cfg st obj).renderIndexRprims = st.renderIndexRprims) ∧
    (lightQueueInv cfg st →
      lightQueueInv cfg (OnDagNodeAdded cfg st obj) ∧
      lightQueueInv cfg (OnDagNodeRemoved cfg st obj)) ∧
    (lightQueueInv cfg st →
      obj ∉ (OnDagNodeRemoved cfg st obj).lightsToAdd ∧
      obj ∉ (OnDagNodeRemoved cfg st obj).addedNodes) := by
  refine ⟨?_, ?_, ?_, ?_⟩
  · unfold OnDagNodeAdded
    split_ifs <;> exact ⟨rfl, rfl, rfl, rfl, rfl, rfl, rfl⟩
  · simp only [OnDagNodeRemoved]
    split_ifs <;> exact ⟨rfl, rfl, rfl, rfl, rfl, rfl, rfl⟩
  · intro hinv
    constructor
    · unfold OnDagNodeAdded
      split_ifs with h1 h2 h3 h4
      · exact hinv
      · exact hinv
      · refine ⟨?_, hinv.2⟩
        intro o ho
        rcases List.mem_append.1 ho with ho1 | ho2
        · exact hinv.1 o ho1
        · simp at ho2
          subst ho2
          exact h3
      · refine ⟨hinv.1, ?_⟩
        intro o ho
        rcases List.mem_append.1 ho with ho1 | ho2
        · exact hinv.2 o ho1
        · simp at ho2
          subst ho2
          exact ⟨h4, by simpa using h3⟩
      · exact hinv
    · simp only [OnDagNodeRemoved]
      split_ifs with h1 h2
      · exact ⟨fun o ho => hinv.1 o (List.mem_of_mem_filter ho), hinv.2⟩
      · exact ⟨hinv.1, fun o ho => hinv.2 o (List.mem_of_mem_filter ho)⟩
      · exact hinv
  · intro hinv
    simp only [OnDagNodeRemoved]
    split_ifs with hrem hmesh
    · have hmem : obj ∈ st.lightsToAdd := by
        by_contra hno
        apply hrem
        rw [List.filter_eq_self.2]
        intro a ha
        simp only [ne_eq, decide_eq_true_eq]
        intro hh
        exact hno (hh ▸ ha)
      have hlight : cfg.hasLightCreatorObj obj = true := hinv.1 obj hmem
      constructor
      · intro hin
        have := List.of_mem_filter hin
        simp at this
      · intro hin
        have := (hinv.2 obj hin).2
        rw [hlight] at this
        exact Bool.noConfusion this
    · have hnotin : obj ∉ st.lightsToAdd := by
        intro hin
        apply hrem
        intro hlen
        have hall := List.filter_length_eq_length.1 hlen
        have := hall obj hin
        simp at this
      refine ⟨hnotin, ?_⟩
      intro hin
      have := List.of_mem_filter hin
      simp at this
    · have hnotin : obj ∉ st.lightsToAdd := by
        intro hin
        apply hrem
        intro hlen
        have hall := List.filter_length_eq_length.1 hlen
        have := hall obj hin
        simp at this
      refine ⟨hnotin, ?_⟩
      intro hin
      exact hmesh ((hinv.2 obj hin).1 ▸ rfl)

/-- C10 witness: a light handle queued and then removed is gone from both
queues; the handlers leave the adapter maps unchanged. -/
theorem claim10_node_lifecycle_witness :
    (3 ∉ (OnDagNodeRemoved cfgLightObj stQueuedLightObj 3).lightsToAdd ∧
     3 ∉ (OnDagNodeRemoved cfgLightObj stQueuedLightObj 3).addedNodes) ∧
    (OnDagNodeAdded cfgLightObj stQueuedLightObj 3).lightAdapters =
      stQueuedLightObj.lightAdapters :=
  ⟨(claim10_node_lifecycle cfgLightObj stQueuedLightObj 3).2.2.2
      ⟨fun o ho => by
        simp only [stQueuedLightObj, List.mem_singleton] at ho
        subst ho
        rfl,
       fun o ho => by simp [stQueuedLightObj] at ho⟩,
   (claim10_node_lifecycle cfgLightObj stQueuedLightObj 3).1.2.2.2.1⟩

/-! ### C7: defaults for unknown identities -/

/-- C7: For every identity path present in no adapter table, every pull query
returns its type-appropriate default and never fails: `GetVisible` is false,
`GetInstancerTransform` is the identity matrix, and topology / primvar / value
queries return the value-initialized empty result. -/
theorem claim7_default_values (cfg : Config) (st : DelegateState) (id : SdfPath)
    (key : TfToken) (interpolation : Nat)
    (h1 : mapLookup st.shapeAdapters id = none)
    (h2 : mapLookup st.renderItemsAdapters id = none)
    (h3 : mapLookup st.lightAdapters id = none)
    (h4 : mapLookup st.cameraAdapters id = none)
    (h5 : mapLookup st.materialAdapters id = none)
    (h6 : mapLookup st.shapeAdapters (SdfPath.getPrimPath id) = none) :
    GetVisible st id = false ∧
    GetInstancerTransform st id = GfMatrix4d.identity ∧
    GetMeshTopology st id = {} ∧
    Get cfg st id key = VtValue.empty ∧
    GetPrimvarDescriptors cfg st id interpolation = [] := by
  refine ⟨?_, rfl, ?_, ?_, ?_⟩
  · simp [GetVisible, h1, h2, h3]
  · simp [GetMeshTopology, h1, h2]
  · by_cases hp : (cfg.useMeshAdapter && SdfPath.isPropertyPath id) = true
    · simp [Get, hp, h6]
    · simp only [Bool.not_eq_true] at hp
      simp [Get, hp, h1, h2, h3, h4, h5]
  · by_cases hp : (cfg.useMeshAdapter && SdfPath.isPropertyPath id) = true
    · simp [GetPrimvarDescriptors, hp, h6]
    · simp only [Bool.not_eq_true] at hp
      simp [GetPrimvarDescriptors, hp, h1, h2]

/-- C7 witness: every query on an identity unknown to the empty delegate. -/
theorem claim7_default_values_witness :
    GetVisible emptyDelegate "/unknown" = false ∧
    GetInstancerTransform emptyDelegate "/unknown" = GfMatrix4d.identity ∧
    GetMeshTopology emptyDelegate "/unknown" = {} ∧
    Get cfgHdSt emptyDelegate "/unknown" "points" = VtValue.empty ∧
    GetPrimvarDescriptors cfgHdSt emptyDelegate "/unknown" 0 = [] :=
  claim7_default_values cfgHdSt emptyDelegate "/unknown" "points" 0 rfl rfl rfl rfl rfl rfl

/-! ### C6: material resolution order -/

/-- C6: `GetMaterialId` resolves in fixed priority order: the global
default-material override wins outright; a render-item adapter with a lines or
line-strip primitive resolves to the fallback material; a render-item adapter
whose bound material is registered resolves to that material; an identity in
neither table resolves to the fallback material, as does a mesh-adapter shape
whose lazy material creation fails. -/
theorem claim6_material_resolution (cfg : Config) (st : DelegateState) (id : SdfPath) :
    (st.useDefaultMaterial = true →
      (GetMaterialId cfg st id).1 = mayaDefaultMaterialPath) ∧
    (∀ ria, st.useDefaultMaterial = false →
      mapLookup st.renderItemsAdapters id = some ria →
      (ria.primitive = GeomPrimitive.kLines ∨ ria.primitive = GeomPrimitive.kLineStrip) →
      (GetMaterialId cfg st id).1 = fallbackMaterial) ∧
    (∀ ria, st.useDefaultMaterial = false →
      mapLookup st.renderItemsAdapters id = some ria →
      ¬(ria.primitive = GeomPrimitive.kLines ∨ ria.primitive = GeomPrimitive.kLineStrip) →
      ria.material ≠ kInvalidMaterial →
      (mapLookup st.materialAdapters ria.material).isSome →
      (GetMaterialId cfg st id).1 = ria.material) ∧
    (st.useDefaultMaterial = false →
      mapLookup st.renderItemsAdapters id = none →
      mapLookup st.shapeAdapters id = none →
      (GetMaterialId cfg st id).1 = fallbackMaterial) ∧
    (∀ sa, st.useDefaultMaterial = false →
      mapLookup st.renderItemsAdapters id = none →
      cfg.useMeshAdapter = true →
      mapLookup st.shapeAdapters id = some sa →
      sa.material ≠ MObject.kNullObj →
      mapLookup st.materialAdapters (cfg.getMaterialPath sa.material) = none →
      (_CreateMaterial cfg st (cfg.getMaterialPath sa.material) sa.material).1 = false →
      (GetMaterialId cfg st id).1 = fallbackMaterial) := by
  refine ⟨?_, ?_, ?_, ?_, ?_⟩
  · intro hdef
    simp [GetMaterialId, hdef]
  · intro ria hdef hria hprim
    simp [GetMaterialId, hdef, hria, hprim]
  · intro ria hdef hria hprim hinv hreg
    rw [Option.isSome_iff_exists] at hreg
    obtain ⟨ma, hma⟩ := hreg
    simp [GetMaterialId, hdef, hria, hprim, hinv, hma]
  · intro hdef hria hshape
    by_cases hmesh : cfg.useMeshAdapter = true
    · simp [GetMaterialId, getMaterialIdMeshPart, hdef, hria, hshape, hmesh]
    · simp only [Bool.not_eq_true] at hmesh
      simp [GetMaterialId, getMaterialIdMeshPart, hdef, hria, hmesh]
  · intro sa hdef hria hmesh hshape hmat hreg hfail
    simp [GetMaterialId, getMaterialIdMeshPart, hdef, hria, hmesh, hshape, hmat, hreg, hfail]

/-- C6 witness: override, wireframe, registered and unknown cases. -/
theorem claim6_material_resolution_witness :
    (GetMaterialId cfgHdSt stDefaultOverride "/any").1 = mayaDefaultMaterialPath ∧
    (GetMaterialId cfgHdSt stMaterials "/ri/lines1").1 = fallbackMaterial ∧
    (GetMaterialId cfgHdSt stMaterials "/ri/shaded1").1 = "/materials/mat1" ∧
    (GetMaterialId cfgHdSt stMaterials "/unknown").1 = fallbackMaterial := by
  refine ⟨?_, ?_, ?_, ?_⟩
  · exact (claim6_material_resolution cfgHdSt stDefaultOverride "/any").1 rfl
  · exact (claim6_material_resolution cfgHdSt stMaterials "/ri/lines1").2.1 riaLines rfl rfl
      (Or.inl rfl)
  · exact (claim6_material_resolution cfgHdSt stMaterials "/ri/shaded1").2.2.1 riaShaded rfl rfl
      (by decide) (by decide) rfl
  · exact (claim6_material_resolution cfgHdSt stMaterials "/unknown").2.2.2.1 rfl rfl rfl

/-! ### C1: the two render-item tables -/

/-- C1 counterexample: after `_AddRenderItem` of `ria1` followed by
`RemoveAdapter` at its identity path, the path-keyed table no longer holds the
entry while the fast integer-keyed table still does — the two tables disagree,
refuting the claim that every removal operation (including `RemoveAdapter`)
keeps them in sync. -/
theorem claim1_counterexample :
    mapLookup (RemoveAdapter (_AddRenderItem emptyDelegate ria1) "/rItem1").renderItemsAdapters
      "/rItem1" = none ∧
    (mapLookup (RemoveAdapter (_AddRenderItem emptyDelegate ria1)
        "/rItem1").renderItemsAdaptersFast 7).isSome = true :=
  ⟨rfl, rfl⟩

/-- C1 (amended): `_AddRenderItem` of a fresh adapter and `_RemoveRenderItem`
of a stored adapter each update the fast integer-keyed table and the
path-keyed table together, preserving the two-table correspondence
(`RemoveAdapter`, by contrast, erases only the path-keyed entry, see the
counterexample). -/
theorem claim1_two_table_update (st : DelegateState) (ria : RenderItemAdapter)
    (hc : RenderItemCorr st) :
    (mapLookup st.renderItemsAdapters ria.id = none →
     mapLookup st.renderItemsAdaptersFast ria.fastId = none →
     RenderItemCorr (_AddRenderItem st ria)) ∧
    (mapLookup st.renderItemsAdaptersFast ria.fastId = some ria →
     RenderItemCorr (_RemoveRenderItem st ria)) := by
  constructor
  · intro hslow hfast
    have hslow1 : (_AddRenderItem st ria).renderItemsAdapters =
        (ria.id, ria) :: st.renderItemsAdapters := by
      simp [_AddRenderItem, mapInsert_of_absent _ hslow]
    have hfast1 : (_AddRenderItem st ria).renderItemsAdaptersFast =
        (ria.fastId, ria) :: st.renderItemsAdaptersFast := by
      simp [_AddRenderItem, mapInsert_of_absent _ hfast]
    constructor
    · intro p a ha
      rw [hslow1] at ha
      simp only [mapLookup] at ha
      by_cases hp : ria.id = p
      · rw [if_pos hp] at ha
        have haa : a = ria := by injection ha with ha1; exact ha1.symm
        subst haa
        refine ⟨hp, ?_⟩
        rw [hfast1]
        simp [mapLookup]
      · rw [if_neg hp] at ha
        obtain ⟨hid, hfa⟩ := hc.1 p a ha
        refine ⟨hid, ?_⟩
        rw [hfast1]
        simp only [mapLookup]
        rw [if_neg]
        · exact hfa
        · intro heq
          rw [← heq] at hfa
          rw [hfast] at hfa
          exact Option.noConfusion hfa
    · intro k a ha
      rw [hfast1] at ha
      simp only [mapLookup] at ha
      by_cases hk : ria.fastId = k
      · rw [if_pos hk] at ha
        have haa : a = ria := by injection ha with ha1; exact ha1.symm
        subst haa
        refine ⟨hk, ?_⟩
        rw [hslow1]
        simp [mapLookup]
      · rw [if_neg hk] at ha
        obtain ⟨hfid, hsa⟩ := hc.2 k a ha
        refine ⟨hfid, ?_⟩
        rw [hslow1]
        simp only [mapLookup]
        rw [if_neg]
        · exact hsa
        · intro heq
          rw [← heq] at hsa
          rw [hslow] at hsa
          exact Option.noConfusion hsa
  · intro hfast
    have hslow : mapLookup st.renderItemsAdapters ria.id = some ria := by
      have h := hc.2 ria.fastId ria hfast
      exact h.2
    constructor
    · intro p a ha
      simp only [_RemoveRenderItem] at ha
      rw [mapLookup_erase] at ha
      by_cases hp : p = ria.id
      · rw [if_pos hp] at ha; exact Option.noConfusion ha
      · rw [if_neg hp] at ha
        obtain ⟨hid, hfa⟩ := hc.1 p a ha
        refine ⟨hid, ?_⟩
        simp only [_RemoveRenderItem]
        rw [mapLookup_erase]
        rw [if_neg]
        · exact hfa
        · intro heq
          rw [heq, hfast] at hfa
          have : a = ria := by injection hfa with h1; exact h1.symm
          subst this
          exact hp hid.symm
    · intro k a ha
      simp only [_RemoveRenderItem] at ha
      rw [mapLookup_erase] at ha
      by_cases hk : k = ria.fastId
      · rw [if_pos hk] at ha; exact Option.noConfusion ha
      · rw [if_neg hk] at ha
        obtain ⟨hfid, hsa⟩ := hc.2 k a ha
        refine ⟨hfid, ?_⟩
        simp only [_RemoveRenderItem]
        rw [mapLookup_erase]
        rw [if_neg]
        · exact hsa
        · intro heq
          rw [heq, hslow] at hsa
          have : a = ria := by injection hsa with h1; exact h1.symm
          subst this
          exact hk hfid.symm

/-- C1 (amended) witness: adding a fresh render item to the empty delegate
preserves the two-table correspondence. -/
theorem claim1_two_table_update_witness :
    RenderItemCorr (_AddRenderItem emptyDelegate ria1) :=
  (claim1_two_table_update emptyDelegate ria1
    ⟨fun _ _ h => Option.noConfusion h, fun _ _ h => Option.noConfusion h⟩).1 rfl rfl

/-! ### C8: material-tag changes force prim rebuilds -/

theorem rebuildRprimsDrain_fields (id : SdfPath) (l : List Rprim) (st : DelegateState) :
    (rebuildRprimsDrain id l st).materialAdapters = st.materialAdapters ∧
    (rebuildRprimsDrain id l st).renderIndexRprims = st.renderIndexRprims ∧
    (rebuildRprimsDrain id l st).materialTagsChanged = st.materialTagsChanged := by
  induction l generalizing st with
  | nil => exact ⟨rfl, rfl, rfl⟩
  | cons r rest ih =>
    by_cases hr : r.materialId = id
    · simp only [rebuildRprimsDrain, if_pos hr]
      exact ih _
    · simp only [rebuildRprimsDrain, if_neg hr]
      exact ih _

theorem hasFlagAt_enqueue (q : List (SdfPath × Nat)) (j i : SdfPath) (m fl : Nat)
    (h : hasFlagAt q j m) : hasFlagAt (rebuildEnqueue q i fl) j m := by
  obtain ⟨f, hf, hb⟩ := h
  by_cases hj : j = i
  · subst hj
    exact ⟨f ||| fl, rebuildEnqueue_lookup_present _ _ _ _ hf, and_ne_zero_lor_left hb⟩
  · exact ⟨f, by rw [rebuildEnqueue_lookup_other _ _ _ _ hj]; exact hf, hb⟩

theorem hasFlagAt_rprimsDrain (id : SdfPath) (l : List Rprim) (st : DelegateState)
    (j : SdfPath) (m : Nat) (h : hasFlagAt st.adaptersToRebuild j m) :
    hasFlagAt (rebuildRprimsDrain id l st).adaptersToRebuild j m := by
  induction l generalizing st with
  | nil => exact h
  | cons r rest ih =>
    by_cases hr : r.materialId = id
    · simp only [rebuildRprimsDrain, if_pos hr]
      exact ih _ (hasFlagAt_enqueue _ _ _ _ _ h)
    · simp only [rebuildRprimsDrain, if_neg hr]
      exact ih _ h

theorem hasFlagAt_rprimsDrain_establish (id : SdfPath) (l : List Rprim) (st : DelegateState)
    (r : Rprim) (hr : r ∈ l) (hm : r.materialId = id) :
    hasFlagAt (rebuildRprimsDrain id l st).adaptersToRebuild r.id RebuildFlagPrim := by
  induction l generalizing st with
  | nil => cases hr
  | cons r0 rest ih =>
    rcases List.mem_cons.1 hr with hr0 | hrr
    · subst hr0
      simp only [rebuildRprimsDrain, if_pos hm]
      apply hasFlagAt_rprimsDrain
      simp only [RebuildAdapterOnIdle]
      cases hq : mapLookup st.adaptersToRebuild r.id with
      | none => exact ⟨RebuildFlagPrim, rebuildEnqueue_lookup_absent _ _ _ hq, by decide⟩
      | some f =>
        exact ⟨f ||| RebuildFlagPrim, rebuildEnqueue_lookup_present _ _ _ _ hq,
          and_ne_zero_lor_right (by decide)⟩
    · by_cases hr0 : r0.materialId = id
      · simp only [rebuildRprimsDrain, if_pos hr0]
        exact ih _ hrr
      · simp only [rebuildRprimsDrain, if_neg hr0]
        exact ih _ hrr

theorem materialTagsDrain_fields (l : List SdfPath) (st : DelegateState) :
    (materialTagsDrain l st).materialAdapters = st.materialAdapters ∧
    (materialTagsDrain l st).renderIndexRprims = st.renderIndexRprims := by
  induction l generalizing st with
  | nil => exact ⟨rfl, rfl⟩
  | cons id rest ih =>
    cases hm : mapLookup st.materialAdapters id with
    | none =>
      simp only [materialTagsDrain, hm]
      exact ih st
    | some a =>
      by_cases ht : a.updateMaterialTagResult
      · simp only [materialTagsDrain, hm, if_pos ht]
        have hf := rebuildRprimsDrain_fields id st.renderIndexRprims st
        exact ⟨(ih _).1.trans hf.1, (ih _).2.trans hf.2.1⟩
      · simp only [materialTagsDrain, hm, if_neg ht]
        exact ih st

theorem hasFlagAt_tagsDrain (l : List SdfPath) (st : DelegateState) (j : SdfPath) (m : Nat)
    (h : hasFlagAt st.adaptersToRebuild j m) :
    hasFlagAt (materialTagsDrain l st).adaptersToRebuild j m := by
  induction l generalizing st with
  | nil => exact h
  | cons id rest ih =>
    cases hm : mapLookup st.materialAdapters id with
    | none =>
      simp only [materialTagsDrain, hm]
      exact ih st h
    | some a =>
      by_cases ht : a.updateMaterialTagResult
      · simp only [materialTagsDrain, hm, if_pos ht]
        exact ih _ (hasFlagAt_rprimsDrain _ _ _ _ _ h)
      · simp only [materialTagsDrain, hm, if_neg ht]
        exact ih st h

theorem hasFlagAt_tagsDrain_establish (id : SdfPath) (a : MaterialAdapter) (r : Rprim)
    (htag : a.updateMaterialTagResult = true) (hrm : r.materialId = id) :
    ∀ (l : List SdfPath) (st : DelegateState), id ∈ l →
      mapLookup st.materialAdapters id = some a → r ∈ st.renderIndexRprims →
      hasFlagAt (materialTagsDrain l st).adaptersToRebuild r.id RebuildFlagPrim := by
  intro l
  induction l with
  | nil => intro st hid _ _; cases hid
  | cons id0 rest ih =>
    intro st hid hmat hr
    rcases List.mem_cons.1 hid with h0 | hmem
    · subst h0
      simp only [materialTagsDrain, hmat, if_pos htag]
      apply hasFlagAt_tagsDrain
      exact hasFlagAt_rprimsDrain_establish id _ st r hr hrm
    · cases hm0 : mapLookup st.materialAdapters id0 with
      | none =>
        simp only [materialTagsDrain, hm0]
        exact ih st hmem hmat hr
      | some a0 =>
        by_cases ht0 : a0.updateMaterialTagResult
        · simp only [materialTagsDrain, hm0, if_pos ht0]
          have hfld := rebuildRprimsDrain_fields id0 st.renderIndexRprims st
          exact ih _ hmem (by rw [hfld.1]; exact hmat) (by rw [hfld.2.1]; exact hr)
        · simp only [materialTagsDrain, hm0, if_neg ht0]
          exact ih st hmem hmat hr

/-- C8: When a queued material-tag change refers to a registered material
whose `UpdateMaterialTag()` reports a change, every rprim of the render index
referencing that material is scheduled for a full prim rebuild
(`RebuildFlagPrim`, remove+repopulate) by the material-tag step; the render
index itself is not dirty-marked by the step, and the queue ends empty. -/
theorem claim8_material_tag_rebuild (cfg : Config) (st : DelegateState) (id : SdfPath)
    (a : MaterialAdapter) (r : Rprim)
    (hhd : cfg.isHdSt = true)
    (hq : id ∈ st.materialTagsChanged)
    (hmat : mapLookup st.materialAdapters id = some a)
    (htag : a.updateMaterialTagResult = true)
    (hr : r ∈ st.renderIndexRprims) (hrm : r.materialId = id) :
    hasFlagAt (stepMaterialTags cfg st).adaptersToRebuild r.id RebuildFlagPrim ∧
    (stepMaterialTags cfg st).materialTagsChanged = [] ∧
    (stepMaterialTags cfg st).renderIndexRprims = st.renderIndexRprims := by
  have hne : st.materialTagsChanged.isEmpty = false := by
    cases hl : st.materialTagsChanged with
    | nil => rw [hl] at hq; cases hq
    | cons x xs => rfl
  simp only [stepMaterialTags, hne, Bool.false_eq_true, if_false, hhd, if_true]
  refine ⟨?_, trivial, ?_⟩
  · exact hasFlagAt_tagsDrain_establish id a r htag hrm st.materialTagsChanged st hq hmat hr
  · exact (materialTagsDrain_fields st.materialTagsChanged st).2

/-- C8 witness: material `/materials/matM` with a changed tag referenced by
rprims `/shapes/shapeA` and `/shapes/shapeB` — both get a queued prim rebuild
and the tag queue is drained. -/
theorem claim8_material_tag_rebuild_witness :
    hasFlagAt (stepMaterialTags cfgHdSt stTagChange).adaptersToRebuild "/shapes/shapeA"
      RebuildFlagPrim ∧
    hasFlagAt (stepMaterialTags cfgHdSt stTagChange).adaptersToRebuild "/shapes/shapeB"
      RebuildFlagPrim ∧
    (stepMaterialTags cfgHdSt stTagChange).materialTagsChanged = [] := by
  have hA := claim8_material_tag_rebuild cfgHdSt stTagChange "/materials/matM"
    matTagChangedAdapter { id := "/shapes/shapeA", materialId := "/materials/matM" }
    rfl (by simp [stTagChange]) rfl rfl (by simp [stTagChange]) rfl
  have hB := claim8_material_tag_rebuild cfgHdSt stTagChange "/materials/matM"
    matTagChangedAdapter { id := "/shapes/shapeB", materialId := "/materials/matM" }
    rfl (by simp [stTagChange]) rfl rfl (by simp [stTagChange]) rfl
  exact ⟨hA.1, hB.1, hA.2.1⟩

/-! ### `PreFrame` pipeline lemmas -/

theorem stepDisplayFlags_fields (cfg : Config) (st : DelegateState) (b : Bool) :
    (stepDisplayFlags cfg st b).1.renderItemsAdapters = st.renderItemsAdapters ∧
    (stepDisplayFlags cfg st b).1.renderItemsAdaptersFast = st.renderItemsAdaptersFast ∧
    (stepDisplayFlags cfg st b).1.shapeAdapters = st.shapeAdapters ∧
    (stepDisplayFlags cfg st b).1.lightAdapters = st.lightAdapters ∧
    (stepDisplayFlags cfg st b).1.cameraAdapters = st.cameraAdapters ∧
    (stepDisplayFlags cfg st b).1.materialAdapters = st.materialAdapters ∧
    (stepDisplayFlags cfg st b).1.lightsToAdd = st.lightsToAdd ∧
    (stepDisplayFlags cfg st b).1.addedNodes = st.addedNodes ∧
    (stepDisplayFlags cfg st b).1.adaptersToRecreate = st.adaptersToRecreate ∧
    (stepDisplayFlags cfg st b).1.adaptersToRebuild = st.adaptersToRebuild ∧
    (stepDisplayFlags cfg st b).1.materialTagsChanged = st.materialTagsChanged ∧
    (stepDisplayFlags cfg st b).1.renderIndexRprims = st.renderIndexRprims := by
  unfold stepDisplayFlags
  split_ifs <;> exact ⟨rfl, rfl, rfl, rfl, rfl, rfl, rfl, rfl, rfl, rfl, rfl, rfl⟩

theorem stepXray_fields (st : DelegateState) (b : Bool) :
    (stepXray st b).renderItemsAdapters = st.renderItemsAdapters ∧
    (stepXray st b).renderItemsAdaptersFast = st.renderItemsAdaptersFast ∧
    (stepXray st b).shapeAdapters = st.shapeAdapters ∧
    (stepXray st b).lightAdapters = st.lightAdapters ∧
    (stepXray st b).cameraAdapters = st.cameraAdapters ∧
    (stepXray st b).lightsToAdd = st.lightsToAdd ∧
    (stepXray st b).addedNodes = st.addedNodes ∧
    (stepXray st b).adaptersToRecreate = st.adaptersToRecreate ∧
    (stepXray st b).adaptersToRebuild = st.adaptersToRebuild ∧
    (stepXray st b).materialTagsChanged = st.materialTagsChanged ∧
    (stepXray st b).renderIndexRprims = st.renderIndexRprims := by
  unfold stepXray
  split_ifs <;> exact ⟨rfl, rfl, rfl, rfl, rfl, rfl, rfl, rfl, rfl, rfl, rfl⟩

theorem stepMaterialTags_empty (cfg : Config) (st : DelegateState)
    (h : st.materialTagsChanged = []) : stepMaterialTags cfg st = st := by
  simp [stepMaterialTags, h]

theorem stepLightsToAdd_empty (cfg : Config) (st : DelegateState)
    (h : st.lightsToAdd = []) : stepLightsToAdd cfg st = (st, false) := by
  simp [stepLightsToAdd, h]

theorem stepAddedNodes_empty (cfg : Config) (st : DelegateState)
    (h : st.addedNodes = []) : stepAddedNodes cfg st = (st, [], false) := by
  simp [stepAddedNodes, h]

theorem stepLightsToAdd_fail (cfg : Config) (st : DelegateState) (obj : MObject)
    (rest : List MObject) (hq : st.lightsToAdd = obj :: rest)
    (hfail : cfg.getAPathTo obj = none) : stepLightsToAdd cfg st = (st, true) := by
  simp [stepLightsToAdd, hq, lightsToAddLoop, hfail]

theorem preFrame_empty_queues (cfg : Config) (st : DelegateState) (ctx : DrawContext)
    (htags : st.materialTagsChanged = [])
    (hlq : st.lightsToAdd = [])
    (han : st.addedNodes = []) :
    PreFrame cfg st ctx =
      (stepLightSync cfg
        (stepRebuild (stepRecreate cfg
          (stepXray (stepDisplayFlags cfg st ctx.displayDefaultMaterial).1
            ctx.displayXray)).1).1 ctx,
       (stepDisplayFlags cfg st ctx.displayDefaultMaterial).2 ++
         (stepRecreate cfg
           (stepXray (stepDisplayFlags cfg st ctx.displayDefaultMaterial).1
             ctx.displayXray)).2 ++
         (stepRebuild (stepRecreate cfg
           (stepXray (stepDisplayFlags cfg st ctx.displayDefaultMaterial).1
             ctx.displayXray)).1).2) := by
  obtain ⟨-, -, -, -, -, -, d7, d8, -, -, d11, -⟩ :=
    stepDisplayFlags_fields cfg st ctx.displayDefaultMaterial
  obtain ⟨-, -, -, -, -, x6, x7, -, -, x10, -⟩ :=
    stepXray_fields (stepDisplayFlags cfg st ctx.displayDefaultMaterial).1 ctx.displayXray
  have htags2 :
      (stepXray (stepDisplayFlags cfg st ctx.displayDefaultMaterial).1
        ctx.displayXray).materialTagsChanged = [] := x10.trans (d11.trans htags)
  have hlq2 :
      (stepXray (stepDisplayFlags cfg st ctx.displayDefaultMaterial).1
        ctx.displayXray).lightsToAdd = [] := x6.trans (d7.trans hlq)
  have han2 :
      (stepXray (stepDisplayFlags cfg st ctx.displayDefaultMaterial).1
        ctx.displayXray).addedNodes = [] := x7.trans (d8.trans han)
  simp only [PreFrame, stepMaterialTags_empty _ _ htags2, stepLightsToAdd_empty _ _ hlq2,
    stepAddedNodes_empty _ _ han2]
  simp

/-! ### C3: fault isolation of the synchronization pass -/

/-- C3 counterexample: with queued lights `[1, 2]` where handle 1 no longer
resolves but handle 2 is a creatable light, plus a pending rebuild entry,
`PreFrame` aborts on the first queued light: no adapter is created for
handle 2, the lights-to-add queue is not cleared, and the pending rebuild is
never drained — one malformed entity blocks the rest of the pass. -/
theorem claim3_counterexample :
    (PreFrame cfgFailFirstLight stTwoQueuedLights ctxNoLights).1.lightsToAdd = [1, 2] ∧
    (PreFrame cfgFailFirstLight stTwoQueuedLights ctxNoLights).1.adaptersToRebuild
      = [("/s1", RebuildFlagPrim)] ∧
    (PreFrame cfgFailFirstLight stTwoQueuedLights ctxNoLights).1.lightAdapters.isEmpty
      = true :=
  ⟨rfl, rfl, rfl⟩

/-- C3 (amended/corrected): a queued light whose DAG path can no longer be
resolved makes `PreFrame` return immediately — the lights-to-add queue is left
uncleared, the recreate/rebuild drains and the light-state sync are skipped,
and no adapter is created for the remaining queued entities; the pass is not
fault-isolated per entity. -/
theorem claim3_early_return (cfg : Config) (st : DelegateState) (ctx : DrawContext)
    (obj : MObject) (rest : List MObject)
    (htags : st.materialTagsChanged = [])
    (hq : st.lightsToAdd = obj :: rest)
    (hfail : cfg.getAPathTo obj = none) :
    (PreFrame cfg st ctx).1.lightsToAdd = obj :: rest ∧
    (PreFrame cfg st ctx).1.adaptersToRebuild = st.adaptersToRebuild ∧
    (PreFrame cfg st ctx).1.adaptersToRecreate = st.adaptersToRecreate ∧
    (PreFrame cfg st ctx).1.lightAdapters = st.lightAdapters ∧
    (PreFrame cfg st ctx).1.addedNodes = st.addedNodes := by
  obtain ⟨-, -, -, d4, -, -, d7, d8, d9, d10, d11, -⟩ :=
    stepDisplayFlags_fields cfg st ctx.displayDefaultMaterial
  obtain ⟨-, -, -, x4, -, x6, x7, x8, x9, x10, -⟩ :=
    stepXray_fields (stepDisplayFlags cfg st ctx.displayDefaultMaterial).1 ctx.displayXray
  have htags2 :
      (stepXray (stepDisplayFlags cfg st ctx.displayDefaultMaterial).1
        ctx.displayXray).materialTagsChanged = [] := x10.trans (d11.trans htags)
  have hq2 :
      (stepXray (stepDisplayFlags cfg st ctx.displayDefaultMaterial).1
        ctx.displayXray).lightsToAdd = obj :: rest := x6.trans (d7.trans hq)
  simp [PreFrame, stepMaterialTags_empty _ _ htags2, stepLightsToAdd_fail _ _ _ _ hq2 hfail,
    hq2, x9.trans d10, x8.trans d9, x4.trans d4, x7.trans d8]

/-- C3 (amended) witness: the concrete aborting run. -/
theorem claim3_early_return_witness :
    (PreFrame cfgFailFirstLight stTwoQueuedLights ctxNoLights).1.lightsToAdd = 1 :: [2] ∧
    (PreFrame cfgFailFirstLight stTwoQueuedLights ctxNoLights).1.adaptersToRebuild
      = stTwoQueuedLights.adaptersToRebuild ∧
    (PreFrame cfgFailFirstLight stTwoQueuedLights ctxNoLights).1.adaptersToRecreate
      = stTwoQueuedLights.adaptersToRecreate ∧
    (PreFrame cfgFailFirstLight stTwoQueuedLights ctxNoLights).1.lightAdapters
      = stTwoQueuedLights.lightAdapters ∧
    (PreFrame cfgFailFirstLight stTwoQueuedLights ctxNoLights).1.addedNodes
      = stTwoQueuedLights.addedNodes :=
  claim3_early_return cfgFailFirstLight stTwoQueuedLights ctxNoLights 1 [2] rfl rfl rfl

/-! ### C5: recreate supersedes rebuild -/

theorem OnDagNodeAdded_rebuild (cfg : Config) (st : DelegateState) (obj : MObject) :
    (OnDagNodeAdded cfg st obj).adaptersToRebuild = st.adaptersToRebuild := by
  unfold OnDagNodeAdded
  split_ifs <;> rfl

theorem OnDagNodeAdded_recreate (cfg : Config) (st : DelegateState) (obj : MObject) :
    (OnDagNodeAdded cfg st obj).adaptersToRecreate = st.adaptersToRecreate := by
  unfold OnDagNodeAdded
  split_ifs <;> rfl

theorem CreateLightAdapter_rebuild (cfg : Config) (st : DelegateState) (dag : DagPath) :
    (CreateLightAdapter cfg st dag).1.adaptersToRebuild = st.adaptersToRebuild := by
  unfold CreateLightAdapter
  dsimp only
  repeat' split
  all_goals rfl

theorem CreateLightAdapter_recreate (cfg : Config) (st : DelegateState) (dag : DagPath) :
    (CreateLightAdapter cfg st dag).1.adaptersToRecreate = st.adaptersToRecreate := by
  unfold CreateLightAdapter
  dsimp only
  repeat' split
  all_goals rfl

theorem CreateCameraAdapter_rebuild (cfg : Config) (st : DelegateState) (dag : DagPath) :
    (CreateCameraAdapter cfg st dag).1.adaptersToRebuild = st.adaptersToRebuild := by
  unfold CreateCameraAdapter
  dsimp only
  repeat' split
  all_goals rfl

theorem CreateCameraAdapter_recreate (cfg : Config) (st : DelegateState) (dag : DagPath) :
    (CreateCameraAdapter cfg st dag).1.adaptersToRecreate = st.adaptersToRecreate := by
  unfold CreateCameraAdapter
  dsimp only
  repeat' split
  all_goals rfl

theorem CreateShapeAdapter_rebuild (cfg : Config) (st : DelegateState) (dag : DagPath) :
    (CreateShapeAdapter cfg st dag).1.adaptersToRebuild = st.adaptersToRebuild := by
  unfold CreateShapeAdapter
  dsimp only
  repeat' split
  all_goals rfl

theorem CreateShapeAdapter_recreate (cfg : Config) (st : DelegateState) (dag : DagPath) :
    (CreateShapeAdapter cfg st dag).1.adaptersToRecreate = st.adaptersToRecreate := by
  unfold CreateShapeAdapter
  dsimp only
  repeat' split
  all_goals rfl

theorem CreateMaterial_rebuild (cfg : Config) (st : DelegateState) (id : SdfPath)
    (obj : MObject) : (_CreateMaterial cfg st id obj).2.adaptersToRebuild
      = st.adaptersToRebuild := by
  unfold _CreateMaterial
  dsimp only
  repeat' split
  all_goals rfl

theorem CreateMaterial_recreate (cfg : Config) (st : DelegateState) (id : SdfPath)
    (obj : MObject) : (_CreateMaterial cfg st id obj).2.adaptersToRecreate
      = st.adaptersToRecreate := by
  unfold _CreateMaterial
  dsimp only
  repeat' split
  all_goals rfl

theorem InsertDag_rebuild (cfg : Config) (st : DelegateState) (dag : DagPath) :
    (InsertDag cfg st dag).adaptersToRebuild = st.adaptersToRebuild := by
  simp only [InsertDag]
  repeat' split
  all_goals
    simp [CreateLightAdapter_rebuild, CreateCameraAdapter_rebuild, CreateShapeAdapter_rebuild,
      CreateMaterial_rebuild]

theorem InsertDag_recreate (cfg : Config) (st : DelegateState) (dag : DagPath) :
    (InsertDag cfg st dag).adaptersToRecreate = st.adaptersToRecreate := by
  simp only [InsertDag]
  repeat' split
  all_goals
    simp [CreateLightAdapter_recreate, CreateCameraAdapter_recreate, CreateShapeAdapter_recreate,
      CreateMaterial_recreate]

theorem RecreateAdapter_rebuild (cfg : Config) (st : DelegateState) (id : SdfPath)
    (obj : MObject) :
    (RecreateAdapter cfg st id obj).adaptersToRebuild = st.adaptersToRebuild := by
  unfold RecreateAdapter
  repeat' split
  all_goals
    simp [OnDagNodeAdded_rebuild, InsertDag_rebuild, CreateMaterial_rebuild]

theorem RecreateAdapter_recreate (cfg : Config) (st : DelegateState) (id : SdfPath)
    (obj : MObject) :
    (RecreateAdapter cfg st id obj).adaptersToRecreate = st.adaptersToRecreate := by
  unfold RecreateAdapter
  repeat' split
  all_goals
    simp [OnDagNodeAdded_recreate, InsertDag_recreate, CreateMaterial_recreate]

theorem recreateDrain_trace (cfg : Config) (l : List (SdfPath × MObject))
    (st : DelegateState) :
    (recreateDrain cfg l st).2 = l.map (fun e => TraceEv.recreated e.1) := by
  induction l generalizing st with
  | nil => rfl
  | cons e rest ih => simp [recreateDrain, ih]

theorem eraseFirst_countKey_self (q : List (SdfPath × Nat)) (id : SdfPath) :
    countKey (eraseFirstRebuild q id) id = countKey q id - 1 := by
  induction q with
  | nil => rfl
  | cons e rest ih =>
    obtain ⟨i, f⟩ := e
    by_cases hi : i = id
    · simp [eraseFirstRebuild, hi, countKey]
    · simp only [eraseFirstRebuild, if_neg hi, countKey, ih]
      simp [hi]

theorem eraseFirst_countKey_le (q : List (SdfPath × Nat)) (i j : SdfPath) :
    countKey (eraseFirstRebuild q i) j ≤ countKey q j := by
  induction q with
  | nil => exact Nat.le_refl _
  | cons e rest ih =>
    obtain ⟨i0, f0⟩ := e
    by_cases hi : i0 = i
    · simp only [eraseFirstRebuild, if_pos hi, countKey]
      omega
    · simp only [eraseFirstRebuild, if_neg hi, countKey]
      omega

theorem recreateDrain_rebuild_zero_pres (cfg : Config) (l : List (SdfPath × MObject))
    (st : DelegateState) (id : SdfPath)
    (h : countKey st.adaptersToRebuild id = 0) :
    countKey (recreateDrain cfg l st).1.adaptersToRebuild id = 0 := by
  induction l generalizing st with
  | nil => exact h
  | cons e rest ih =>
    simp only [recreateDrain]
    apply ih
    show countKey (eraseFirstRebuild
        (RecreateAdapter cfg st e.1 e.2).adaptersToRebuild e.1) id = 0
    rw [RecreateAdapter_rebuild]
    have h1 := eraseFirst_countKey_le st.adaptersToRebuild e.1 id
    omega

theorem recreateDrain_rebuild_zero (cfg : Config) (l : List (SdfPath × MObject))
    (st : DelegateState) (id : SdfPath) (obj : MObject)
    (hmem : (id, obj) ∈ l) (hc : countKey st.adaptersToRebuild id ≤ 1) :
    countKey (recreateDrain cfg l st).1.adaptersToRebuild id = 0 := by
  induction l generalizing st with
  | nil => cases hmem
  | cons e rest ih =>
    rcases List.mem_cons.1 hmem with he | hmem2
    · simp only [recreateDrain]
      apply recreateDrain_rebuild_zero_pres
      show countKey (eraseFirstRebuild
          (RecreateAdapter cfg st e.1 e.2).adaptersToRebuild e.1) id = 0
      rw [RecreateAdapter_rebuild, ← he]
      show countKey (eraseFirstRebuild st.adaptersToRebuild id) id = 0
      have h1 := eraseFirst_countKey_self st.adaptersToRebuild id
      omega
    · simp only [recreateDrain]
      apply ih _ hmem2
      show countKey (eraseFirstRebuild
          (RecreateAdapter cfg st e.1 e.2).adaptersToRebuild e.1) id ≤ 1
      rw [RecreateAdapter_rebuild]
      have h1 := eraseFirst_countKey_le st.adaptersToRebuild e.1 id
      omega

theorem recreateDrain_recreate (cfg : Config) (l : List (SdfPath × MObject))
    (st : DelegateState) :
    (recreateDrain cfg l st).1.adaptersToRecreate = st.adaptersToRecreate := by
  induction l generalizing st with
  | nil => rfl
  | cons e rest ih =>
    simp only [recreateDrain]
    rw [ih]
    exact RecreateAdapter_recreate _ _ _ _

theorem stepRecreate_recreate (cfg : Config) (st : DelegateState) :
    (stepRecreate cfg st).1.adaptersToRecreate = [] := by
  unfold stepRecreate
  split_ifs with h
  · exact List.isEmpty_iff.1 h
  · rfl

theorem stepRecreate_trace (cfg : Config) (st : DelegateState) :
    (stepRecreate cfg st).2
      = st.adaptersToRecreate.map (fun e => TraceEv.recreated e.1) := by
  unfold stepRecreate
  split_ifs with h
  · rw [List.isEmpty_iff.1 h]
    rfl
  · exact recreateDrain_trace _ _ _

theorem stepRecreate_rebuild_zero (cfg : Config) (st : DelegateState) (id : SdfPath)
    (obj : MObject) (hmem : (id, obj) ∈ st.adaptersToRecreate)
    (hc : countKey st.adaptersToRebuild id ≤ 1) :
    countKey (stepRecreate cfg st).1.adaptersToRebuild id = 0 := by
  unfold stepRecreate
  split_ifs with h
  · rw [List.isEmpty_iff.1 h] at hmem
    cases hmem
  · exact recreateDrain_rebuild_zero cfg _ st id obj hmem hc

theorem stepRebuild_rebuild (st : DelegateState) :
    (stepRebuild st).1.adaptersToRebuild = [] := by
  unfold stepRebuild
  split_ifs with h
  · exact List.isEmpty_iff.1 h
  · rfl

theorem stepRebuild_recreate (st : DelegateState) :
    (stepRebuild st).1.adaptersToRecreate = st.adaptersToRecreate := by
  unfold stepRebuild
  split_ifs with h
  · rfl
  · rfl

theorem rebuildDrain_mem (st : DelegateState) (l : List (SdfPath × Nat)) (id : SdfPath)
    (f : Nat) (h : TraceEv.rebuiltApplied id f ∈ rebuildDrain st l) : (id, f) ∈ l := by
  induction l with
  | nil => cases h
  | cons e rest ih =>
    by_cases hfound : ((mapLookup st.shapeAdapters e.1).isSome
        || (mapLookup st.lightAdapters e.1).isSome
        || (mapLookup st.materialAdapters e.1).isSome) = true
    · rw [show rebuildDrain st (e :: rest)
          = TraceEv.rebuiltApplied e.1 e.2 :: rebuildDrain st rest from by
        simp [rebuildDrain, hfound]] at h
      rcases List.mem_cons.1 h with hh | hh
      · injection hh with h1 h2
        subst h1
        subst h2
        exact List.mem_cons_self _ _
      · exact List.mem_cons_of_mem _ (ih hh)
    · rw [show rebuildDrain st (e :: rest) = rebuildDrain st rest from by
        simp [rebuildDrain, hfound]] at h
      exact List.mem_cons_of_mem _ (ih h)

theorem stepRebuild_trace_mem (st : DelegateState) (id : SdfPath) (f : Nat)
    (h : TraceEv.rebuiltApplied id f ∈ (stepRebuild st).2) :
    (id, f) ∈ st.adaptersToRebuild := by
  unfold stepRebuild at h
  split_ifs at h with h1
  · cases h
  · exact rebuildDrain_mem st _ id f h

theorem not_mem_of_countKey_zero {κ α : Type} [DecidableEq κ] {m : List (κ × α)} {k : κ}
    (h : countKey m k = 0) (v : α) : (k, v) ∉ m := by
  induction m with
  | nil => simp
  | cons e rest ih =>
    intro hmem
    rcases List.mem_cons.1 hmem with he | hmem2
    · rw [← he] at h
      simp [countKey] at h
    · obtain ⟨k1, v1⟩ := e
      by_cases hk : k1 = k
      · simp [countKey, hk] at h
      · simp only [countKey, if_neg hk, Nat.zero_add] at h
        exact ih h hmem2

theorem createRemainingLights_rebuild (cfg : Config) (alp : List (String × DagPath))
    (st : DelegateState) :
    (createRemainingLights cfg alp st).adaptersToRebuild = st.adaptersToRebuild := by
  induction alp generalizing st with
  | nil => rfl
  | cons e rest ih =>
    simp only [createRemainingLights]
    rw [ih, CreateLightAdapter_rebuild]

theorem createRemainingLights_recreate (cfg : Config) (alp : List (String × DagPath))
    (st : DelegateState) :
    (createRemainingLights cfg alp st).adaptersToRecreate = st.adaptersToRecreate := by
  induction alp generalizing st with
  | nil => rfl
  | cons e rest ih =>
    simp only [createRemainingLights]
    rw [ih, CreateLightAdapter_recreate]

theorem stepLightSync_rebuild (cfg : Config) (st : DelegateState) (ctx : DrawContext) :
    (stepLightSync cfg st ctx).adaptersToRebuild = st.adaptersToRebuild := by
  unfold stepLightSync
  dsimp only
  split_ifs <;>
    first
      | rfl
      | exact (createRemainingLights_rebuild cfg _ _).trans rfl

theorem stepLightSync_recreate (cfg : Config) (st : DelegateState) (ctx : DrawContext) :
    (stepLightSync cfg st ctx).adaptersToRecreate = st.adaptersToRecreate := by
  unfold stepLightSync
  dsimp only
  split_ifs <;>
    first
      | rfl
      | exact (createRemainingLights_recreate cfg _ _).trans rfl

theorem stepDisplayFlags_no_rebuilt (cfg : Config) (st : DelegateState) (b : Bool)
    (id : SdfPath) (f : Nat) :
    TraceEv.rebuiltApplied id f ∉ (stepDisplayFlags cfg st b).2 := by
  unfold stepDisplayFlags
  split_ifs
  · intro h
    simp [List.mem_map] at h
  · simp
  · simp

/-- C5: If, when the synchronization pass runs (the other pending queues being
quiet), an identity path has both a pending recreate entry and a pending
rebuild entry, then the recreate is applied and the pending rebuild for that
identity is removed without ever being applied; after the pass both queues
are empty. -/
theorem claim5_recreate_supersedes (cfg : Config) (st : DelegateState) (ctx : DrawContext)
    (id : SdfPath) (obj : MObject)
    (htags : st.materialTagsChanged = [])
    (hlq : st.lightsToAdd = [])
    (han : st.addedNodes = [])
    (hrec : (id, obj) ∈ st.adaptersToRecreate)
    (hreb : countKey st.adaptersToRebuild id = 1) :
    TraceEv.recreated id ∈ (PreFrame cfg st ctx).2 ∧
    (∀ f, TraceEv.rebuiltApplied id f ∉ (PreFrame cfg st ctx).2) ∧
    (PreFrame cfg st ctx).1.adaptersToRecreate = [] ∧
    (PreFrame cfg st ctx).1.adaptersToRebuild = [] := by
  rw [preFrame_empty_queues cfg st ctx htags hlq han]
  obtain ⟨-, -, -, -, -, -, -, -, d9, d10, -, -⟩ :=
    stepDisplayFlags_fields cfg st ctx.displayDefaultMaterial
  obtain ⟨-, -, -, -, -, -, -, x8, x9, -, -⟩ :=
    stepXray_fields (stepDisplayFlags cfg st ctx.displayDefaultMaterial).1 ctx.displayXray
  have hrec2 : (stepXray (stepDisplayFlags cfg st ctx.displayDefaultMaterial).1
      ctx.displayXray).adaptersToRecreate = st.adaptersToRecreate := x8.trans d9
  have hreb2 : (stepXray (stepDisplayFlags cfg st ctx.displayDefaultMaterial).1
      ctx.displayXray).adaptersToRebuild = st.adaptersToRebuild := x9.trans d10
  refine ⟨?_, ?_, ?_, ?_⟩
  · apply List.mem_append.2
    left
    apply List.mem_append.2
    right
    rw [stepRecreate_trace, hrec2]
    exact List.mem_map_of_mem _ hrec
  · intro f hmem
    rcases List.mem_append.1 hmem with h12 | h3
    · rcases List.mem_append.1 h12 with hA | hB
      · exact stepDisplayFlags_no_rebuilt cfg st ctx.displayDefaultMaterial id f hA
      · rw [stepRecreate_trace] at hB
        simp [List.mem_map] at hB
    · have hin := stepRebuild_trace_mem _ id f h3
      have hzero : countKey (stepRecreate cfg
          (stepXray (stepDisplayFlags cfg st ctx.displayDefaultMaterial).1
            ctx.displayXray)).1.adaptersToRebuild id = 0 := by
        apply stepRecreate_rebuild_zero cfg _ id obj
        · rw [hrec2]; exact hrec
        · rw [hreb2]; omega
      exact not_mem_of_countKey_zero hzero f hin
  · rw [stepLightSync_recreate, stepRebuild_recreate, stepRecreate_recreate]
  · rw [stepLightSync_rebuild, stepRebuild_rebuild]

/-- C5 witness: the concrete state with a recreate and a rebuild queued for
`/xform1`. -/
theorem claim5_recreate_supersedes_witness :
    TraceEv.recreated "/xform1" ∈ (PreFrame cfgHdSt stRecreateRebuild ctxNoLights).2 ∧
    TraceEv.rebuiltApplied "/xform1" 3 ∉ (PreFrame cfgHdSt stRecreateRebuild ctxNoLights).2 ∧
    (PreFrame cfgHdSt stRecreateRebuild ctxNoLights).1.adaptersToRecreate = [] ∧
    (PreFrame cfgHdSt stRecreateRebuild ctxNoLights).1.adaptersToRebuild = [] := by
  have h := claim5_recreate_supersedes cfgHdSt stRecreateRebuild ctxNoLights "/xform1" 9
    rfl rfl rfl (List.mem_cons_self _ _) rfl
  exact ⟨h.1, h.2.1 3, h.2.2.1, h.2.2.2⟩

/-! ### C2: light-state reconciliation -/

theorem activeLightPathsAux_isSome (l : List (SdfPath × LightAdapter))
    (acc : List (String × DagPath)) (name : String)
    (h : (∃ e ∈ l, e.2.dagPath.fullPathName = name) ∨ (mapLookup acc name).isSome) :
    (mapLookup (activeLightPathsAux l acc) name).isSome := by
  induction l generalizing acc with
  | nil =>
    rcases h with ⟨e, he, -⟩ | h2
    · cases he
    · exact h2
  | cons e rest ih =>
    simp only [activeLightPathsAux]
    apply ih
    rcases h with ⟨e1, he1, hn⟩ | h2
    · rcases List.mem_cons.1 he1 with hh | hh
      · right
        subst hh
        rw [← hn]
        exact mapLookup_insert_self_isSome _ _ _
      · left
        exact ⟨e1, hh, hn⟩
    · right
      exact mapLookup_insert_isSome h2

theorem contextLightLoop_isSome (cfg : Config) (ls : List LightSource)
    (alp : List (String × DagPath)) (name : String)
    (h : (mapLookup alp name).isSome) :
    (mapLookup (contextLightLoop cfg ls alp) name).isSome := by
  induction ls generalizing alp with
  | nil => exact h
  | cons l rest ih =>
    simp only [contextLightLoop]
    split_ifs with h1 h2 h3
    all_goals
      first
        | exact ih alp h
        | exact ih _ (mapLookup_insert_isSome h)

theorem length_ne_zero_of_lookup_isSome {κ α : Type} [DecidableEq κ] {m : List (κ × α)}
    {k : κ} (h : (mapLookup m k).isSome) : m.length ≠ 0 := by
  cases m with
  | nil => simp [mapLookup] at h
  | cons e rest => simp

theorem lightSweep_all_on (l : List (SdfPath × LightAdapter))
    (alp : List (String × DagPath))
    (hall : ∀ e ∈ l, (mapLookup alp e.2.dagPath.fullPathName).isSome)
    (hnd : (l.map (fun e => e.2.dagPath.fullPathName)).Nodup) :
    (lightSweep l alp).1 = l.map (fun e => (e.1, turnOnLight e.2)) := by
  induction l generalizing alp with
  | nil => rfl
  | cons e rest ih =>
    obtain ⟨id, a⟩ := e
    have he := hall (id, a) (List.mem_cons_self _ _)
    simp only [lightSweep, he, if_pos, List.map_cons]
    congr 1
    apply ih
    · intro e1 he1
      rw [mapLookup_erase]
      rw [if_neg]
      · exact hall e1 (List.mem_cons_of_mem _ he1)
      · intro hh
        have hne := (List.nodup_cons.1 hnd).1
        apply hne
        have hmem : e1.2.dagPath.fullPathName
            ∈ List.map (fun e => e.2.dagPath.fullPathName) rest :=
          List.mem_map_of_mem (fun e => e.2.dagPath.fullPathName) he1
        rw [hh] at hmem
        exact hmem
    · exact (List.nodup_cons.1 hnd).2

theorem mapLookup_map_value {κ α β : Type} [DecidableEq κ] (l : List (κ × α)) (f : α → β)
    (k : κ) : mapLookup (l.map (fun e => (e.1, f e.2))) k = (mapLookup l k).map f := by
  induction l with
  | nil => rfl
  | cons e rest ih =>
    obtain ⟨k1, v⟩ := e
    by_cases h : k1 = k
    · simp [mapLookup, h]
    · simp [mapLookup, h, ih]

theorem countKey_map_value {κ α β : Type} [DecidableEq κ] (l : List (κ × α)) (f : α → β)
    (k : κ) : countKey (l.map (fun e => (e.1, f e.2))) k = countKey l k := by
  induction l with
  | nil => rfl
  | cons e rest ih => simp [countKey, ih]

theorem CreateLightAdapter_lookup_pres (cfg : Config) (st : DelegateState) (dag : DagPath)
    (pid : SdfPath) (h : (mapLookup st.lightAdapters pid).isSome) :
    mapLookup (CreateLightAdapter cfg st dag).1.lightAdapters pid
      = mapLookup st.lightAdapters pid := by
  unfold CreateLightAdapter
  dsimp only
  cases hc : cfg.lightCreator dag with
  | none => rfl
  | some created =>
    dsimp only
    by_cases hu : cfg.isUfeDag dag = true
    · rw [if_pos hu]
    · rw [if_neg hu]
      by_cases hl : (mapLookup st.lightAdapters (cfg.getPrimPath dag true)).isSome = true
      · rw [if_pos hl]
      · rw [if_neg hl]
        cases created with
        | none => rfl
        | some a =>
          dsimp only
          by_cases hs : a.isSupported = true
          · rw [if_pos hs]
            have hnone : mapLookup st.lightAdapters (cfg.getPrimPath dag true) = none :=
              Option.not_isSome_iff_eq_none.1 hl
            show mapLookup (mapInsert st.lightAdapters (cfg.getPrimPath dag true) a) pid
              = mapLookup st.lightAdapters pid
            rw [mapLookup_insert_absent _ _ hnone]
            rw [if_neg]
            intro hh
            rw [hh] at hnone
            rw [hnone] at h
            simp at h
          · rw [if_neg hs]

theorem CreateLightAdapter_countKey_pres (cfg : Config) (st : DelegateState) (dag : DagPath)
    (pid : SdfPath) (h : (mapLookup st.lightAdapters pid).isSome) :
    countKey (CreateLightAdapter cfg st dag).1.lightAdapters pid
      = countKey st.lightAdapters pid := by
  unfold CreateLightAdapter
  dsimp only
  cases hc : cfg.lightCreator dag with
  | none => rfl
  | some created =>
    dsimp only
    by_cases hu : cfg.isUfeDag dag = true
    · rw [if_pos hu]
    · rw [if_neg hu]
      by_cases hl : (mapLookup st.lightAdapters (cfg.getPrimPath dag true)).isSome = true
      · rw [if_pos hl]
      · rw [if_neg hl]
        cases created with
        | none => rfl
        | some a =>
          dsimp only
          by_cases hs : a.isSupported = true
          · rw [if_pos hs]
            have hnone : mapLookup st.lightAdapters (cfg.getPrimPath dag true) = none :=
              Option.not_isSome_iff_eq_none.1 hl
            show countKey (mapInsert st.lightAdapters (cfg.getPrimPath dag true) a) pid
              = countKey st.lightAdapters pid
            rw [mapInsert_of_absent _ hnone]
            simp only [countKey]
            rw [if_neg]
            · omega
            · intro hh
              rw [hh] at hnone
              rw [hnone] at h
              simp at h
          · rw [if_neg hs]

theorem createRemainingLights_lookup (cfg : Config) (alp : List (String × DagPath))
    (st : DelegateState) (pid : SdfPath)
    (h : (mapLookup st.lightAdapters pid).isSome) :
    mapLookup (createRemainingLights cfg alp st).lightAdapters pid
      = mapLookup st.lightAdapters pid := by
  induction alp generalizing st with
  | nil => rfl
  | cons e rest ih =>
    simp only [createRemainingLights]
    have h2 : (mapLookup (CreateLightAdapter cfg st e.2).1.lightAdapters pid).isSome := by
      rw [CreateLightAdapter_lookup_pres cfg st e.2 pid h]
      exact h
    rw [ih _ h2, CreateLightAdapter_lookup_pres cfg st e.2 pid h]

theorem createRemainingLights_countKey (cfg : Config) (alp : List (String × DagPath))
    (st : DelegateState) (pid : SdfPath)
    (h : (mapLookup st.lightAdapters pid).isSome) :
    countKey (createRemainingLights cfg alp st).lightAdapters pid
      = countKey st.lightAdapters pid := by
  induction alp generalizing st with
  | nil => rfl
  | cons e rest ih =>
    simp only [createRemainingLights]
    have h2 : (mapLookup (CreateLightAdapter cfg st e.2).1.lightAdapters pid).isSome := by
      rw [CreateLightAdapter_lookup_pres cfg st e.2 pid h]
      exact h
    rw [ih _ h2, CreateLightAdapter_countKey_pres cfg st e.2 pid h]

theorem stepRecreate_of_empty (cfg : Config) (st : DelegateState)
    (h : st.adaptersToRecreate = []) : stepRecreate cfg st = (st, []) := by
  simp [stepRecreate, h]

theorem stepRebuild_of_empty (st : DelegateState)
    (h : st.adaptersToRebuild = []) : stepRebuild st = (st, []) := by
  simp [stepRebuild, h]

theorem stepLightSync_all_on (cfg : Config) (st : DelegateState) (ctx : DrawContext)
    (pid : SdfPath) (a : LightAdapter)
    (hhd : cfg.isHdSt = true)
    (ha : mapLookup st.lightAdapters pid = some a)
    (hnd : (st.lightAdapters.map (fun e => e.2.dagPath.fullPathName)).Nodup) :
    mapLookup (stepLightSync cfg st ctx).lightAdapters pid
      = some { a with lightingOn := true } ∧
    countKey (stepLightSync cfg st ctx).lightAdapters pid
      = countKey st.lightAdapters pid := by
  unfold stepLightSync
  dsimp only
  rw [if_neg (fun hc => hc hhd)]
  have halp : (mapLookup (_GetActiveLightPaths st) a.dagPath.fullPathName).isSome := by
    apply activeLightPathsAux_isSome
    exact Or.inl ⟨(pid, a), mapLookup_mem ha, rfl⟩
  have hlen : (_GetActiveLightPaths st).length ≠ 0 := length_ne_zero_of_lookup_isSome halp
  rw [if_neg (fun hcond => hlen hcond.2)]
  have hall : ∀ e ∈ st.lightAdapters,
      (mapLookup (contextLightLoop cfg ctx.activeLights (_GetActiveLightPaths st))
        e.2.dagPath.fullPathName).isSome := by
    intro e he
    apply contextLightLoop_isSome
    apply activeLightPathsAux_isSome
    exact Or.inl ⟨e, he, rfl⟩
  have hsw := lightSweep_all_on st.lightAdapters
    (contextLightLoop cfg ctx.activeLights (_GetActiveLightPaths st)) hall hnd
  have hpre : (mapLookup
      (lightSweep st.lightAdapters
        (contextLightLoop cfg ctx.activeLights (_GetActiveLightPaths st))).1 pid).isSome := by
    rw [hsw, mapLookup_map_value, ha]
    rfl
  constructor
  · rw [createRemainingLights_lookup cfg _ _ pid hpre]
    show mapLookup (lightSweep st.lightAdapters
      (contextLightLoop cfg ctx.activeLights (_GetActiveLightPaths st))).1 pid
      = some { a with lightingOn := true }
    rw [hsw, mapLookup_map_value, ha]
    rfl
  · rw [createRemainingLights_countKey cfg _ _ pid hpre]
    show countKey (lightSweep st.lightAdapters
      (contextLightLoop cfg ctx.activeLights (_GetActiveLightPaths st))).1 pid
      = countKey st.lightAdapters pid
    rw [hsw, countKey_map_value]

/-- C2 counterexample: a light adapter for `|pointLight1` exists (currently
off) and the frame's draw-context active-light enumeration is empty, yet after
`PreFrame` the adapter's lighting-enabled state is `true`, not `false` — the
active-light snapshot is seeded from the adapters themselves, so the
turn-off branch cannot fire for an existing adapter. -/
theorem claim2_counterexample :
    ctxNoLights.activeLights = [] ∧
    (mapLookup (PreFrame cfgHdSt stLightP ctxNoLights).1.lightAdapters
        "/lights/pointLight1").map LightAdapter.lightingOn = some true ∧
    (PreFrame cfgHdSt stLightP ctxNoLights).1.lightAdapters.length = 1 :=
  ⟨rfl, rfl, rfl⟩

/-- C2 (amended): since `_GetActiveLightPaths` seeds the snapshot with every
existing adapter's full path name, the reconciliation sweep turns every
existing light adapter on regardless of the draw-context enumeration: after
`PreFrame` (queues quiet, HdSt backend, adapters with distinct path names) the
adapter for P has lighting-enabled state `true` — not `false` as claimed —
and no second adapter is created for P. -/
theorem claim2_lights_always_on (cfg : Config) (st : DelegateState) (ctx : DrawContext)
    (pid : SdfPath) (a : LightAdapter)
    (hhd : cfg.isHdSt = true)
    (htags : st.materialTagsChanged = [])
    (hlq : st.lightsToAdd = [])
    (han : st.addedNodes = [])
    (hrecq : st.adaptersToRecreate = [])
    (hrebq : st.adaptersToRebuild = [])
    (ha : mapLookup st.lightAdapters pid = some a)
    (hnd : (st.lightAdapters.map (fun e => e.2.dagPath.fullPathName)).Nodup) :
    mapLookup (PreFrame cfg st ctx).1.lightAdapters pid
      = some { a with lightingOn := true } ∧
    countKey (PreFrame cfg st ctx).1.lightAdapters pid
      = countKey st.lightAdapters pid := by
  rw [preFrame_empty_queues cfg st ctx htags hlq han]
  obtain ⟨-, -, -, d4, -, -, -, -, d9, d10, -, -⟩ :=
    stepDisplayFlags_fields cfg st ctx.displayDefaultMaterial
  obtain ⟨-, -, -, x4, -, -, -, x8, x9, -, -⟩ :=
    stepXray_fields (stepDisplayFlags cfg st ctx.displayDefaultMaterial).1 ctx.displayXray
  have hla2 : (stepXray (stepDisplayFlags cfg st ctx.displayDefaultMaterial).1
      ctx.displayXray).lightAdapters = st.lightAdapters := x4.trans d4
  have hrec2 : (stepXray (stepDisplayFlags cfg st ctx.displayDefaultMaterial).1
      ctx.displayXray).adaptersToRecreate = [] := (x8.trans d9).trans hrecq
  have hreb2 : (stepXray (stepDisplayFlags cfg st ctx.displayDefaultMaterial).1
      ctx.displayXray).adaptersToRebuild = [] := (x9.trans d10).trans hrebq
  have hfinal : (stepRebuild (stepRecreate cfg
      (stepXray (stepDisplayFlags cfg st ctx.displayDefaultMaterial).1
        ctx.displayXray)).1).1
      = stepXray (stepDisplayFlags cfg st ctx.displayDefaultMaterial).1 ctx.displayXray := by
    rw [stepRecreate_of_empty cfg _ hrec2]
    rw [stepRebuild_of_empty _ hreb2]
  rw [hfinal]
  have hres := stepLightSync_all_on cfg
    (stepXray (stepDisplayFlags cfg st ctx.displayDefaultMaterial).1 ctx.displayXray) ctx
    pid a hhd (by rw [hla2]; exact ha) (by rw [hla2]; exact hnd)
  rw [hla2] at hres
  exact hres

/-- C2 (amended) witness: the concrete one-light state with an empty
enumeration; the adapter ends up turned on and stays unique. -/
theorem claim2_lights_always_on_witness :
    mapLookup (PreFrame cfgHdSt stLightP ctxNoLights).1.lightAdapters "/lights/pointLight1"
      = some { lightAdapterP with lightingOn := true } ∧
    countKey (PreFrame cfgHdSt stLightP ctxNoLights).1.lightAdapters "/lights/pointLight1"
      = countKey stLightP.lightAdapters "/lights/pointLight1" :=
  claim2_lights_always_on cfgHdSt stLightP ctxNoLights "/lights/pointLight1" lightAdapterP
    rfl rfl rfl rfl rfl rfl rfl (by simp [stLightP])
